import Mathlib

/-!
# SkyMail Campaign Dispatch Engine — verification development

Shallow embedding of the campaign dispatch engine:
* `app/workers/email_batch.py` — the `send_campaign_batch` Celery task
  (per-batch sender with idempotent delivery logging),
* `app/workers/campaign_scheduler.py` — the `enqueue_due_campaigns` task,
* the template renderer embedded in the batch sender's per-recipient loop,
* the `CampaignSendLog` data model from `app/modules/campaign/send_log.py`.

Machine state (database rows) is modelled explicitly; the external SES
provider is a parameter `provider : String → SesOutcome` giving, per
recipient address, the outcome of `ses_client.send_email` in the current
task invocation.  Python exceptions are modelled as outcome constructors:
`ClientError` from botocore becomes `SesOutcome.clientError code message`,
any other exception raised while processing one recipient becomes
`SesOutcome.otherError message`.  In the `Throttling` branch,
`self.retry(countdown=30)` re-sends the task message to the queue
(`apply_async` with the 30-second countdown) and then raises Celery's
`Retry` marker exception; that exception is an `Exception`, so the
task's outer `except Exception` handler catches it and calls
`self.retry(exc=exc, countdown=60)`, which enqueues a second, duplicate
retry of the batch at 60 seconds.  The embedding records the committed
state and the enqueued retry countdowns, in order, in
`TaskOutcome.retryScheduled`.
-/

set_option autoImplicit false

namespace SkyMail

/-! ## Data model (from `app/database/models` as used by the workers) -/

/-- A `campaigns` row, restricted to the fields the dispatch engine reads. -/
structure Campaign where
  id : Nat
  company_id : Nat
  status : String
  sent_at : Option Nat
  scheduled_for : Option Nat
  template_id : Option Nat
  subject : Option String
  constants_values : List (String × String)
deriving DecidableEq

/-- A `newsletter_templates` row (model imported by the batch worker;
its source file is outside the provided core, fields are those the
worker reads: `name`, `subject`, `html_content`, `text_content`). -/
structure NewsletterTemplate where
  id : Nat
  name : String
  subject : String
  html_content : String
  text_content : Option String
deriving DecidableEq

/-- A `companies` row, restricted to the fields read when building the
render context. -/
structure Company where
  id : Nat
  company_name : String
  website_url : Option String
deriving DecidableEq

/-- A `template_assets` row. -/
structure TemplateAsset where
  template_id : Nat
  company_id : Nat
  file_url : String
deriving DecidableEq

/-- A `subscribers` row, restricted to the fields read for the render
context. -/
structure Subscriber where
  company_id : Nat
  subscriber_email : String
  subscriber_name : String
deriving DecidableEq

/-- A `campaign_send_logs` row (`CampaignSendLog` in
`app/modules/campaign/send_log.py`), restricted to the fields the batch
sender reads and writes.  Timestamps are abstract `Nat` instants. -/
structure CampaignSendLog where
  id : Nat
  campaign_id : Nat
  subscriber_email : String
  status : String
  ses_message_id : Option String
  error_message : Option String
  sent_at : Option Nat
deriving DecidableEq

/-- The database state the dispatch engine reads and writes:
`campaigns` rows and committed `campaign_send_logs` rows. -/
structure DbState where
  campaigns : List Campaign
  logs : List CampaignSendLog
deriving DecidableEq

/-- Read-only environment of a batch invocation: the tables the worker
only reads, and the resolved sender address
(`AWS_SES_SENDER_EMAIL or MAIL_FROM`). -/
structure Env where
  templates : List NewsletterTemplate
  companies : List Company
  assets : List TemplateAsset
  subscribers : List Subscriber
  sender_email : Option String

/-! ## Template renderer

`email_batch.py` lines 182-187: for each `(key, value)` of the render
context, every occurrence of the literal placeholder `"{{" ++ key ++ "}}"`
is replaced in the rendered subject, HTML body, and text body using
Python's `str.replace` (all occurrences, scanned left to right,
non-overlapping).  The placeholder pattern is never empty. -/

/-- One left-to-right scan of Python's `str.replace` over a character
list, with explicit fuel (the scan consumes at least one character of
the subject per step whenever the pattern is non-empty). -/
def replaceFrom : Nat → List Char → List Char → List Char → List Char
  | _, [], _, _ => []
  | 0, s, _, _ => s
  | fuel + 1, c :: rest, pat, rep =>
    if pat.isPrefixOf (c :: rest) then
      rep ++ replaceFrom fuel ((c :: rest).drop pat.length) pat rep
    else
      c :: replaceFrom fuel rest pat rep

/-- Python `s.replace(pat, rep)` for the non-empty patterns the renderer
uses (an empty pattern never arises: patterns always start with `"{{"`). -/
def pyReplace (s pat rep : String) : String :=
  if pat.toList.isEmpty then s
  else String.mk (replaceFrom s.toList.length s.toList pat.toList rep.toList)

/-- The render loop of `email_batch.py` lines 183-187 applied to one text:
sequentially substitute each context entry's placeholder. -/
def renderText (t : String) (ctx : List (String × String)) : String :=
  ctx.foldl (fun acc kv => pyReplace acc ("\x7b\x7b" ++ kv.1 ++ "\x7d\x7d") kv.2) t

/-- Python dict merge `{system..., **constants}`: an entry of `extra`
whose key collides with a `base` key overrides the value in place; fresh
keys of `extra` are appended. -/
def dictMerge (base extra : List (String × String)) : List (String × String) :=
  base.map (fun kv =>
    match extra.find? (fun e => e.1 == kv.1) with
    | some e => (kv.1, e.2)
    | none => kv)
  ++ extra.filter (fun e => base.all (fun kv => kv.1 != e.1))

/-- Python `email.split("@")[0]`: the characters before the first `@`
(the whole address when no `@` occurs). -/
def localPart (email : String) : String :=
  String.mk (email.toList.takeWhile (fun c => c != '@'))

/-- The render context of `email_batch.py` lines 163-172: system
variables merged with the campaign's author-supplied constant values. -/
def buildRenderContext (env : Env) (campaign : Campaign) (company : Company)
    (assetUrls : String) (email : String) : List (String × String) :=
  let subName :=
    match env.subscribers.find? (fun s =>
        s.company_id == campaign.company_id && s.subscriber_email == email) with
    | some s => s.subscriber_name
    | none => localPart email
  dictMerge
    [("company_name", company.company_name),
     ("website_url", company.website_url.getD ""),
     ("subscriber_email", email),
     ("subscriber_username", subName),
     ("template_asset", assetUrls)]
    campaign.constants_values

/-! ## Scheduler (`app/workers/campaign_scheduler.py`) -/

/-- The SQL predicate of `enqueue_due_campaigns` lines 39-44:
`status = 'scheduled' AND scheduled_for <= now()`; a NULL
`scheduled_for` compares to NULL, hence is never selected. -/
def campaignIsDue (c : Campaign) (now : Nat) : Bool :=
  c.status == "scheduled" &&
    (match c.scheduled_for with
     | some t => decide (t ≤ now)
     | none => false)

/-- The result set of the scheduler's due-campaign query. -/
def dueCampaigns (cs : List Campaign) (now : Nat) : List Campaign :=
  cs.filter (fun c => campaignIsDue c now)

/-- Observable effects of one scheduler run: the `send_campaign`
orchestrator units submitted (each carrying only a campaign id) and the
provider calls the scheduler itself performed. -/
structure SchedulerRun where
  enqueued_tasks : List Nat
  provider_calls : List String
  campaigns_enqueued : Nat
deriving DecidableEq

/-- `enqueue_due_campaigns` (lines 39-80): query the due campaigns, then
submit one `send_campaign` unit per due campaign; a submission failure
(`apply_async` raising, modelled by `submitOk c.id = false`) is logged
and skipped without blocking the remaining submissions.  The scheduler
performs no provider call. -/
def enqueue_due_campaigns (cs : List Campaign) (now : Nat)
    (submitOk : Nat → Bool) : SchedulerRun :=
  let due := dueCampaigns cs now
  let submitted := due.filter (fun c => submitOk c.id)
  { enqueued_tasks := submitted.map (fun c => c.id)
  , provider_calls := []
  , campaigns_enqueued := submitted.length }

/-! ## Batch sender (`app/workers/email_batch.py`, `send_campaign_batch`) -/

/-- Outcome of one `ses_client.send_email` call for one recipient, plus
the non-`ClientError` exception case of the per-recipient loop body. -/
inductive SesOutcome where
  | ok (messageId : String)
  | clientError (code message : String)
  | otherError (message : String)
deriving DecidableEq

/-- Membership predicate of the delivery-log query of lines 137-142:
rows of the `(campaign_id, subscriber_email)` pair. -/
def pairRowsP (cid : Nat) (email : String) (r : CampaignSendLog) : Bool :=
  r.campaign_id == cid && r.subscriber_email == email

/-- All committed-or-pending rows of one `(campaign_id, subscriber_email)`
pair, in table order. -/
def pairRows (logs : List CampaignSendLog) (cid : Nat) (email : String) :
    List CampaignSendLog :=
  logs.filter (pairRowsP cid email)

/-- Result of SQLAlchemy's `scalar_one_or_none()` on the pair query:
`none` for zero rows, the row for exactly one, and the
`MultipleResultsFound` exception for two or more. -/
inductive LookupResult where
  | found (r : Option CampaignSendLog)
  | multipleRows
deriving DecidableEq

/-- `db.execute(select(CampaignSendLog).where(pair)).scalar_one_or_none()`. -/
def scalarOneOrNone (logs : List CampaignSendLog) (cid : Nat) (email : String) :
    LookupResult :=
  match pairRows logs cid email with
  | [] => .found none
  | [r] => .found (some r)
  | _ :: _ :: _ => .multipleRows

/-- `db.merge(existing_log)` after mutating its attributes: replace the
row with the same primary key. -/
def updateById (logs : List CampaignSendLog) (row : CampaignSendLog) :
    List CampaignSendLog :=
  logs.map (fun r => if r.id == row.id then row else r)

/-- Largest row id in use; `uuid.uuid4()` freshness is modelled by
allocating ids strictly above this. -/
def maxLogId (logs : List CampaignSendLog) : Nat :=
  logs.foldr (fun r m => max r.id m) 0

/-- One `ses_client.send_email` call as observed at the provider:
recipient plus the rendered subject and HTML body (lines 201-210; the
rendered text body is computed but not included in the SES message). -/
structure ProviderCall where
  recipient : String
  subject : String
  html : String
deriving DecidableEq

/-- Accumulator of the per-recipient loop (lines 129-287): the session's
view of the database, the fresh-id supply, the two counters, and the
provider calls performed so far in this invocation. -/
structure BatchAcc where
  state : DbState
  nextId : Nat
  sent_count : Nat
  failed_count : Nat
  provider_calls : List ProviderCall
deriving DecidableEq

/-- `if existing_log and existing_log.status == "sent"` (line 144). -/
def existingSent : Option CampaignSendLog → Bool
  | some r => r.status == "sent"
  | none => false

/-- The row written by the success path for an existing row
(lines 217-223). -/
def sentUpdate (row : CampaignSendLog) (msgId : String) (now : Nat) :
    CampaignSendLog :=
  { row with
    status := "sent"
    ses_message_id := some msgId
    sent_at := some now
    error_message := none }

/-- The row inserted by the success path when no row exists
(lines 226-235). -/
def sentInsert (rid cid : Nat) (email msgId : String) (now : Nat) :
    CampaignSendLog :=
  { id := rid, campaign_id := cid, subscriber_email := email
  , status := "sent", ses_message_id := some msgId
  , error_message := none, sent_at := some now }

/-- The row written by the `ClientError` handler for an existing row
(lines 246-249): status and error message change, `ses_message_id` and
`sent_at` are left as they were. -/
def failedUpdate (row : CampaignSendLog) (code msg : String) :
    CampaignSendLog :=
  { row with
    status := "failed"
    error_message := some (code ++ ": " ++ msg) }

/-- The row inserted by the `ClientError` handler when no row exists
(lines 251-262). -/
def failedInsert (rid cid : Nat) (email code msg : String) :
    CampaignSendLog :=
  { id := rid, campaign_id := cid, subscriber_email := email
  , status := "failed", ses_message_id := none
  , error_message := some (code ++ ": " ++ msg), sent_at := none }

/-- The row inserted unconditionally by the generic
`except Exception` handler (lines 278-286). -/
def errorInsert (rid cid : Nat) (email msg : String) : CampaignSendLog :=
  { id := rid, campaign_id := cid, subscriber_email := email
  , status := "failed", ses_message_id := none
  , error_message := some msg, sent_at := none }

/-- Result of processing one recipient: continue the loop, or abort it
with the Celery retry signal of the `Throttling` branch (line 272,
`raise self.retry(countdown=30)` after `db.commit()`). -/
inductive StepResult where
  | next (acc : BatchAcc)
  | throttleRetry (acc : BatchAcc) (innerCountdown : Nat)
deriving DecidableEq

/-- Append a freshly inserted row to the session. -/
def accInsertFailed (acc : BatchAcc) (row : CampaignSendLog) : BatchAcc :=
  { acc with
    state := { acc.state with logs := acc.state.logs ++ [row] }
    nextId := acc.nextId + 1
    failed_count := acc.failed_count + 1 }

/-- The `ses_client.send_email` call the loop body makes for one
recipient (lines 160-210): render context built from system variables
and campaign constants, subject from the campaign's override falling
back to the template subject on a missing or empty override (Python
`campaign.subject or template.subject`), subject and HTML rendered by
placeholder substitution. -/
def renderedCall (env : Env) (campaign : Campaign)
    (template : NewsletterTemplate) (company : Company)
    (assetUrls : String) (email : String) : ProviderCall :=
  let ctx := buildRenderContext env campaign company assetUrls email
  let subjectSrc :=
    match campaign.subject with
    | some s => if s == "" then template.subject else s
    | none => template.subject
  { recipient := email
  , subject := renderText subjectSrc ctx
  , html := renderText template.html_content ctx }

/-- The per-recipient loop body of `send_campaign_batch`
(lines 132-287) for one recipient `email`:

1. look up the existing delivery-log row for the pair (lines 137-142);
   a `MultipleResultsFound` from the lookup is an unexpected exception,
   handled by the generic handler, which inserts a new failed row and
   performs no provider call;
2. skip when the row is already `sent` (lines 144-147), counting the
   recipient as sent;
3. otherwise render the template and call the provider (lines 149-210);
4. on success upsert the row to `sent` (lines 216-237);
5. on `ClientError` upsert the row to `failed` (lines 239-264) and, for
   the `Throttling` code, commit and raise the retry signal with the
   inner countdown 30 (lines 269-272);
6. on any other exception insert a new failed row unconditionally
   (lines 274-287). -/
def processRecipient (env : Env) (provider : String → SesOutcome)
    (campaign : Campaign) (template : NewsletterTemplate) (company : Company)
    (assetUrls : String) (now : Nat) (acc : BatchAcc) (email : String) :
    StepResult :=
  match scalarOneOrNone acc.state.logs campaign.id email with
  | .multipleRows =>
    .next (accInsertFailed acc
      (errorInsert acc.nextId campaign.id email "MultipleResultsFound"))
  | .found existing_log =>
    if existingSent existing_log then
      .next { acc with sent_count := acc.sent_count + 1 }
    else
      let call := renderedCall env campaign template company assetUrls email
      match provider email with
      | .ok msgId =>
        match existing_log with
        | some row =>
          .next { acc with
            state := { acc.state with
              logs := updateById acc.state.logs (sentUpdate row msgId now) }
            sent_count := acc.sent_count + 1
            provider_calls := acc.provider_calls ++ [call] }
        | none =>
          .next { acc with
            state := { acc.state with
              logs := acc.state.logs ++
                [sentInsert acc.nextId campaign.id email msgId now] }
            nextId := acc.nextId + 1
            sent_count := acc.sent_count + 1
            provider_calls := acc.provider_calls ++ [call] }
      | .clientError code msg =>
        let acc' :=
          match existing_log with
          | some row =>
            { acc with
              state := { acc.state with
                logs := updateById acc.state.logs (failedUpdate row code msg) }
              failed_count := acc.failed_count + 1
              provider_calls := acc.provider_calls ++ [call] }
          | none =>
            { acc with
              state := { acc.state with
                logs := acc.state.logs ++
                  [failedInsert acc.nextId campaign.id email code msg] }
              nextId := acc.nextId + 1
              failed_count := acc.failed_count + 1
              provider_calls := acc.provider_calls ++ [call] }
        if code == "Throttling" then .throttleRetry acc' 30 else .next acc'
      | .otherError msg =>
        .next { (accInsertFailed acc
            (errorInsert acc.nextId campaign.id email msg)) with
          provider_calls := acc.provider_calls ++ [call] }

/-- Result of the whole recipient loop: ran to the end, or aborted by
the throttling retry signal. -/
inductive LoopResult where
  | completed (acc : BatchAcc)
  | throttled (acc : BatchAcc) (innerCountdown : Nat)
deriving DecidableEq

/-- The recipient loop (lines 132-287). -/
def sendLoop (env : Env) (provider : String → SesOutcome)
    (campaign : Campaign) (template : NewsletterTemplate) (company : Company)
    (assetUrls : String) (now : Nat) (acc : BatchAcc) :
    List String → LoopResult
  | [] => .completed acc
  | email :: rest =>
    match processRecipient env provider campaign template company assetUrls
        now acc email with
    | .next acc' =>
      sendLoop env provider campaign template company assetUrls now acc' rest
    | .throttleRetry acc' c => .throttled acc' c

/-- Observable outcome of one `send_campaign_batch` invocation:
* `errorReturn` — a structured `{"status": "error", ...}` return from
  the pre-loop validation (lines 69-125), nothing written;
* `completed` — graceful completion: logs committed (line 291) and the
  summary dict returned (lines 298-304);
* `retryScheduled` — the task re-queued itself: the throttling branch
  committed the session (line 271), then `self.retry(countdown=30)`
  enqueued the batch's retry with the 30-second countdown and raised
  the `Retry` marker, which the outer `except Exception` handler
  (lines 306-308) caught, enqueueing a second, duplicate retry with
  `countdown=60`; `retry_countdowns` lists the enqueued countdowns in
  order. -/
inductive TaskOutcome where
  | errorReturn (st : DbState) (reason : String)
  | completed (st : DbState) (sent_count failed_count total : Nat)
      (result_status : String) (provider_calls : List ProviderCall)
  | retryScheduled (st : DbState) (retry_countdowns : List Nat)
      (provider_calls : List ProviderCall)
deriving DecidableEq

/-- Database state visible after the invocation (committed rows). -/
def TaskOutcome.stateOf : TaskOutcome → DbState
  | .errorReturn st _ => st
  | .completed st _ _ _ _ _ => st
  | .retryScheduled st _ _ => st

/-- Provider calls performed during the invocation. -/
def TaskOutcome.callsOf : TaskOutcome → List ProviderCall
  | .errorReturn _ _ => []
  | .completed _ _ _ _ _ calls => calls
  | .retryScheduled _ _ calls => calls

/-- Whether the invocation re-queued itself via the task queue. -/
def TaskOutcome.isRetryScheduled : TaskOutcome → Bool
  | .retryScheduled _ _ _ => true
  | _ => false

/-- Countdowns (in seconds) of the retries this invocation enqueued,
in order (empty when the task did not re-queue). -/
def TaskOutcome.retryCountdownsOf : TaskOutcome → List Nat
  | .retryScheduled _ cs _ => cs
  | _ => []

/-- Whether the invocation ran to graceful completion (summary dict
returned after the final `db.commit()`). -/
def TaskOutcome.isCompleted : TaskOutcome → Bool
  | .completed _ _ _ _ _ _ => true
  | _ => false

/-- The accumulator inside a step result. -/
def StepResult.accOf : StepResult → BatchAcc
  | .next acc => acc
  | .throttleRetry acc _ => acc

/-- The accumulator inside a loop result. -/
def LoopResult.accOf : LoopResult → BatchAcc
  | .completed acc => acc
  | .throttled acc _ => acc

/-- `",".join(asset.file_url for ...)` over the assets of the
campaign's template and company (lines 104-112). -/
def assetUrlsOf (env : Env) (campaign : Campaign)
    (template : NewsletterTemplate) : String :=
  String.intercalate ","
    ((env.assets.filter (fun a =>
        a.template_id == template.id &&
        a.company_id == campaign.company_id)).map
      (fun a => a.file_url))

/-- Initial loop accumulator: the session opens on the committed state,
counters zeroed (lines 129-130), fresh row ids above every id in use. -/
def initAcc (st : DbState) : BatchAcc :=
  { state := st, nextId := maxLogId st.logs + 1
  , sent_count := 0, failed_count := 0, provider_calls := [] }

/-- Conversion of the loop result into the task's observable outcome:
graceful completion commits and returns the summary (lines 289-304,
status `"success"` when `failed_count == 0` else `"partial"`).  The
throttling abort has already committed (line 271); its
`self.retry(countdown=30)` enqueues the batch's retry with the inner
countdown (30 seconds) before raising the `Retry` marker, and the outer
`except Exception` handler (lines 306-308) then enqueues a second,
duplicate retry with `countdown=60`. -/
def taskOfLoop (lr : LoopResult) (total : Nat) : TaskOutcome :=
  match lr with
  | .completed acc =>
    .completed acc.state acc.sent_count acc.failed_count total
      (if acc.failed_count == 0 then "success" else "partial")
      acc.provider_calls
  | .throttled acc inner =>
    .retryScheduled acc.state [inner, 60] acc.provider_calls

/-- `send_campaign_batch(campaign_id, subscriber_emails)`
(lines 36-311), one invocation against database state `st`, read-only
environment `env`, and provider behaviour `provider`.

Pre-loop validation mirrors lines 65-125: campaign lookup, template
lookup (only when `template_id` is set), company lookup, configured
sender address (Python truthiness: an empty string is not configured).
The template-asset URLs are joined with `","` (line 112).  After the
loop, `db.commit()` publishes the session (line 291) and the summary is
returned with status `"success"` when no recipient failed, else
`"partial"` (line 299). -/
def send_campaign_batch (env : Env) (provider : String → SesOutcome)
    (now : Nat) (st : DbState) (campaign_id : Nat)
    (subscriber_emails : List String) : TaskOutcome :=
  match st.campaigns.find? (fun c => c.id == campaign_id) with
  | none => .errorReturn st "campaign_not_found"
  | some campaign =>
    match campaign.template_id.bind
        (fun tid => env.templates.find? (fun t => t.id == tid)) with
    | none => .errorReturn st "template_not_found"
    | some template =>
      match env.companies.find? (fun c => c.id == campaign.company_id) with
      | none => .errorReturn st "company_not_found"
      | some company =>
        match env.sender_email with
        | none => .errorReturn st "sender_email_not_configured"
        | some sender =>
          if sender == "" then .errorReturn st "sender_email_not_configured"
          else
            taskOfLoop
              (sendLoop env provider campaign template company
                (assetUrlsOf env campaign template) now (initAcc st)
                subscriber_emails)
              subscriber_emails.length

/-! ## Invariants and concrete fixtures -/

/-- Row ids of a log table. -/
def logIds (logs : List CampaignSendLog) : List Nat :=
  logs.map (fun r => r.id)

/-- Session well-formedness maintained by the loop: row ids are
pairwise distinct (primary keys) and the fresh-id supply is above every
id in use (`uuid4` freshness). -/
def accGood (acc : BatchAcc) : Prop :=
  (logIds acc.state.logs).Nodup ∧ ∀ r ∈ acc.state.logs, r.id < acc.nextId

/-- Sent count of the returned summary (0 on the other outcomes). -/
def TaskOutcome.sentCountOf : TaskOutcome → Nat
  | .completed _ sc _ _ _ _ => sc
  | _ => 0

/-- Failed count of the returned summary (0 on the other outcomes). -/
def TaskOutcome.failedCountOf : TaskOutcome → Nat
  | .completed _ _ fc _ _ _ => fc
  | _ => 0

/-- `status` field of the returned summary (empty on the other
outcomes). -/
def TaskOutcome.resultStatusOf : TaskOutcome → String
  | .completed _ _ _ _ rs _ => rs
  | _ => ""

/-- A fixed campaign used by the concrete scenarios. -/
def fixCampaign : Campaign :=
  { id := 7, company_id := 1, status := "sending", sent_at := none
  , scheduled_for := none, template_id := some 3, subject := none
  , constants_values := [] }

/-- A fixed newsletter template used by the concrete scenarios. -/
def fixTemplate : NewsletterTemplate :=
  { id := 3, name := "T", subject := "S {{company_name}}"
  , html_content := "B {{company_name}}", text_content := some "X" }

/-- A fixed company used by the concrete scenarios. -/
def fixCompany : Company :=
  { id := 1, company_name := "Acme", website_url := none }

/-- A fixed environment used by the concrete scenarios. -/
def fixEnv : Env :=
  { templates := [fixTemplate]
  , companies := [fixCompany]
  , assets := [], subscribers := [], sender_email := some "noreply@sky.io" }

/-- Database state with the fixed campaign and an empty delivery log. -/
def fixSt : DbState := { campaigns := [fixCampaign], logs := [] }

/-- Ten distinct recipients. -/
def tenEmails : List String :=
  ["u1@x.io", "u2@x.io", "u3@x.io", "u4@x.io", "u5@x.io",
   "u6@x.io", "u7@x.io", "u8@x.io", "u9@x.io", "u10@x.io"]

/-- First invocation provider behaviour of the throttling scenario:
recipients 1-3 accepted, recipient 4 hits the SES `Throttling`
`ClientError`. -/
def throttleProvider : String → SesOutcome := fun e =>
  if e == "u4@x.io" then .clientError "Throttling" "Rate exceeded"
  else .ok "mid-1"

/-- Retry-invocation provider behaviour: everything accepted. -/
def okProvider : String → SesOutcome := fun _ => .ok "mid-2"

/-- Provider behaviour of the rejection scenario: recipient 4 is
permanently rejected, the rest accepted. -/
def rejectProvider : String → SesOutcome := fun e =>
  if e == "u4@x.io" then .clientError "MessageRejected" "Address is blacklisted"
  else .ok "mid-1"

/-- Provider behaviour raising an unknown (non-`ClientError`)
exception for every recipient. -/
def boomProvider : String → SesOutcome := fun _ => .otherError "boom"

/-- A pre-existing `pending` delivery-log row for recipient
`b@x.io` of campaign 7. -/
def pendingRow : CampaignSendLog :=
  { id := 1, campaign_id := 7, subscriber_email := "b@x.io"
  , status := "pending", ses_message_id := none
  , error_message := none, sent_at := none }

/-- A pre-existing `failed` delivery-log row for recipient
`b@x.io` of campaign 7. -/
def failedRow : CampaignSendLog :=
  { id := 1, campaign_id := 7, subscriber_email := "b@x.io"
  , status := "failed", ses_message_id := none
  , error_message := some "old", sent_at := none }

/-- A pre-existing `sent` delivery-log row for recipient
`a@x.io` of campaign 7. -/
def sentRow : CampaignSendLog :=
  { id := 1, campaign_id := 7, subscriber_email := "a@x.io"
  , status := "sent", ses_message_id := some "mid-0"
  , error_message := none, sent_at := some 2 }

/-- Provider behaviour returning the same `ClientError` for every
recipient. -/
def cErrProvider : String → SesOutcome :=
  fun _ => .clientError "InternalFailure" "oops"

/-- State with the fixed campaign and one already-`sent` row. -/
def c1WitSt : DbState := { campaigns := [fixCampaign], logs := [sentRow] }

/-- State with the fixed campaign and one `failed` row for `b@x.io`. -/
def c2CexSt : DbState := { campaigns := [fixCampaign], logs := [failedRow] }

/-- State with the fixed campaign and one `pending` row for `b@x.io`. -/
def c3CexSt : DbState := { campaigns := [fixCampaign], logs := [pendingRow] }

/-- The row committed by a one-recipient successful run from `fixSt`. -/
def c3WitRow : CampaignSendLog :=
  { id := 1, campaign_id := 7, subscriber_email := "a@x.io"
  , status := "sent", ses_message_id := some "mid-2"
  , error_message := none, sent_at := some 5 }

/-- The state committed by a one-recipient successful run from
`fixSt`. -/
def c3WitSt : DbState := { campaigns := [fixCampaign], logs := [c3WitRow] }

/-- The provider call made by that run. -/
def c3WitCall : ProviderCall :=
  { recipient := "a@x.io", subject := "S Acme", html := "B Acme" }

/-- First invocation of the throttling scenario: ten recipients, the
provider throttles at recipient 4. -/
def c4Run1 : TaskOutcome :=
  send_campaign_batch fixEnv throttleProvider 1 fixSt 7 tenEmails

/-- Re-queued invocation of the throttling scenario, entered on the
state the first invocation committed. -/
def c4Run2 : TaskOutcome :=
  send_campaign_batch fixEnv okProvider 2 c4Run1.stateOf 7 tenEmails

/-! ## Helper lemmas: the pair query, `db.merge`, and id freshness -/

theorem pairRowsP_iff (cid : Nat) (email : String) (r : CampaignSendLog) :
    pairRowsP cid email r = true ↔
      r.campaign_id = cid ∧ r.subscriber_email = email := by
  simp [pairRowsP]

theorem pairRows_single_of_scalarOne {logs : List CampaignSendLog}
    {cid : Nat} {email : String} {row : CampaignSendLog}
    (h : scalarOneOrNone logs cid email = .found (some row)) :
    pairRows logs cid email = [row] := by
  unfold scalarOneOrNone at h
  rcases hp : pairRows logs cid email with _ | ⟨a, _ | ⟨b, t⟩⟩ <;>
    rw [hp] at h <;> simp_all

theorem pairRows_nil_of_scalarOne {logs : List CampaignSendLog}
    {cid : Nat} {email : String}
    (h : scalarOneOrNone logs cid email = .found none) :
    pairRows logs cid email = [] := by
  unfold scalarOneOrNone at h
  rcases hp : pairRows logs cid email with _ | ⟨a, _ | ⟨b, t⟩⟩ <;>
    rw [hp] at h <;> simp_all

theorem two_le_of_scalarOne_multiple {logs : List CampaignSendLog}
    {cid : Nat} {email : String}
    (h : scalarOneOrNone logs cid email = .multipleRows) :
    2 ≤ (pairRows logs cid email).length := by
  unfold scalarOneOrNone at h
  rcases hp : pairRows logs cid email with _ | ⟨a, _ | ⟨b, t⟩⟩ <;>
    rw [hp] at h <;> simp_all

theorem eq_multiple_of_two_le {logs : List CampaignSendLog}
    {cid : Nat} {email : String}
    (h : 2 ≤ (pairRows logs cid email).length) :
    scalarOneOrNone logs cid email = .multipleRows := by
  unfold scalarOneOrNone
  rcases hp : pairRows logs cid email with _ | ⟨a, _ | ⟨b, t⟩⟩ <;>
    rw [hp] at h <;> simp_all

theorem mem_of_pairRows_single {logs : List CampaignSendLog}
    {cid : Nat} {email : String} {row : CampaignSendLog}
    (h : pairRows logs cid email = [row]) :
    row ∈ logs ∧ row.campaign_id = cid ∧ row.subscriber_email = email := by
  have hm : row ∈ pairRows logs cid email := by rw [h]; exact List.mem_singleton_self row
  rw [pairRows, List.mem_filter] at hm
  exact ⟨hm.1, (pairRowsP_iff cid email row).mp hm.2⟩

theorem pairRows_append_single (logs : List CampaignSendLog)
    (cid : Nat) (email : String) (x : CampaignSendLog) :
    pairRows (logs ++ [x]) cid email =
      pairRows logs cid email ++ if pairRowsP cid email x then [x] else [] := by
  rw [pairRows, List.filter_append]
  rcases hx : pairRowsP cid email x with _ | _ <;>
    simp [pairRows, List.filter_cons, hx]

theorem filter_map_eq_of {l : List CampaignSendLog}
    {f : CampaignSendLog → CampaignSendLog} {p : CampaignSendLog → Bool}
    (h : ∀ x ∈ l, p (f x) = p x ∧ (p x = true → f x = x)) :
    (l.map f).filter p = l.filter p := by
  induction l with
  | nil => rfl
  | cons a t ih =>
    have ha := h a (List.mem_cons_self a t)
    have ht : ∀ x ∈ t, p (f x) = p x ∧ (p x = true → f x = x) :=
      fun x hx => h x (List.mem_cons_of_mem a hx)
    rcases hpa : p a with _ | _
    · simp [List.filter_cons, ha.1, hpa, ih ht]
    · simp [List.filter_cons, ha.1, hpa, ha.2 hpa, ih ht]

theorem logIds_updateById (l : List CampaignSendLog) (row : CampaignSendLog) :
    logIds (updateById l row) = logIds l := by
  unfold logIds updateById
  rw [List.map_map]
  refine List.map_congr_left (fun x hx => ?_)
  by_cases hb : x.id = row.id
  · simp [Function.comp, hb]
  · simp [Function.comp, hb]

theorem logIds_append (l : List CampaignSendLog) (x : CampaignSendLog) :
    logIds (l ++ [x]) = logIds l ++ [x.id] := by
  simp [logIds]

theorem mem_logIds {l : List CampaignSendLog} {r : CampaignSendLog}
    (h : r ∈ l) : r.id ∈ logIds l := List.mem_map_of_mem (fun r => r.id) h

theorem le_maxLogId {logs : List CampaignSendLog} {r : CampaignSendLog}
    (h : r ∈ logs) : r.id ≤ maxLogId logs := by
  induction logs with
  | nil => cases h
  | cons a t ih =>
    rcases List.mem_cons.mp h with rfl | hm
    · exact Nat.le_max_left _ _
    · exact Nat.le_trans (ih hm) (Nat.le_max_right _ _)

theorem initAcc_good {st : DbState} (hnd : (logIds st.logs).Nodup) :
    accGood (initAcc st) :=
  ⟨hnd, fun r hr => Nat.lt_succ_of_le (le_maxLogId hr)⟩

theorem pairRows_updateById_frame {l : List CampaignSendLog}
    (row row' : CampaignSendLog) {c : Nat} {e : String}
    (hnd : (logIds l).Nodup) (hmem : row ∈ l) (hid : row'.id = row.id)
    (hpo : pairRowsP c e row = false) (hpn : pairRowsP c e row' = false) :
    pairRows (updateById l row') c e = pairRows l c e := by
  unfold pairRows updateById
  refine filter_map_eq_of (fun x hx => ?_)
  by_cases hb : x.id = row'.id
  · have hnd0 : (l.map (fun r => r.id)).Nodup := hnd
    have hx_eq : x = row :=
      List.inj_on_of_nodup_map hnd0 hx hmem (by rw [hb, hid])
    subst hx_eq
    refine ⟨?_, ?_⟩
    · simp [hb, hpn, hpo]
    · intro hcontra; rw [hpo] at hcontra; cases hcontra
  · simp [hb]

theorem pairRows_updateById_self {l : List CampaignSendLog}
    (row row' : CampaignSendLog) {c : Nat} {e : String}
    (hnd : (logIds l).Nodup) (hsingle : pairRows l c e = [row])
    (hid : row'.id = row.id) (hpn : pairRowsP c e row' = true) :
    pairRows (updateById l row') c e = [row'] := by
  induction l with
  | nil => simp [pairRows] at hsingle
  | cons a t ih =>
    have hnd_t : (logIds t).Nodup := by
      rw [logIds, List.map_cons] at hnd
      exact (List.nodup_cons.mp hnd).2
    have ha_nin : a.id ∉ logIds t := by
      rw [logIds, List.map_cons] at hnd
      exact (List.nodup_cons.mp hnd).1
    rcases hpa : pairRowsP c e a with _ | _
    · -- head not in the pair; the single pair row lives in the tail
      have hsingle' : pairRows t c e = [row] := by
        rw [pairRows, List.filter_cons, hpa] at hsingle
        simpa using hsingle
      have hrow_t : row ∈ t := (mem_of_pairRows_single hsingle').1
      have ha_ne : a.id ≠ row'.id := by
        rw [hid]
        intro hcontra
        exact ha_nin (hcontra ▸ mem_logIds hrow_t)
      have hstep : updateById (a :: t) row' = a :: updateById t row' := by
        calc updateById (a :: t) row'
            = (if a.id == row'.id then row' else a) :: updateById t row' := rfl
          _ = a :: updateById t row' := by simp [ha_ne]
      rw [hstep, pairRows, List.filter_cons, hpa]
      simp only [Bool.false_eq_true, if_false]
      exact ih hnd_t hsingle'
    · -- head is the unique pair row
      have hhead : a = row ∧ List.filter (pairRowsP c e) t = [] := by
        rw [pairRows, List.filter_cons, hpa] at hsingle
        simp only [if_true] at hsingle
        injection hsingle with h1 h2
        exact ⟨h1, h2⟩
      obtain ⟨rfl, htail⟩ := hhead
      have hupd_t : updateById t row' = t := by
        unfold updateById
        conv_rhs => rw [← List.map_id t]
        refine List.map_congr_left (fun x hx => ?_)
        have hne : x.id ≠ row'.id := by
          rw [hid]
          intro hcontra
          exact ha_nin (hcontra ▸ mem_logIds hx)
        simp [hne]
      have hstep : updateById (a :: t) row' = row' :: t := by
        have hb : a.id = row'.id := hid.symm
        calc updateById (a :: t) row'
            = (if a.id == row'.id then row' else a) :: updateById t row' := rfl
          _ = row' :: t := by rw [hupd_t]; simp [hb]
      rw [hstep, pairRows, List.filter_cons, hpn]
      simp only [if_true]
      rw [htail]

/-! ## Branch equations of the per-recipient loop body -/

section StepEquations

variable (env : Env) (provider : String → SesOutcome) (campaign : Campaign)
variable (template : NewsletterTemplate) (company : Company)
variable (assetUrls : String) (now : Nat) (acc : BatchAcc) (email : String)

theorem processRecipient_multiple
    (h : scalarOneOrNone acc.state.logs campaign.id email = .multipleRows) :
    processRecipient env provider campaign template company assetUrls now
        acc email =
      .next (accInsertFailed acc
        (errorInsert acc.nextId campaign.id email "MultipleResultsFound")) := by
  unfold processRecipient
  rw [h]

theorem processRecipient_skip {row : CampaignSendLog}
    (h : scalarOneOrNone acc.state.logs campaign.id email = .found (some row))
    (hs : row.status = "sent") :
    processRecipient env provider campaign template company assetUrls now
        acc email =
      .next { acc with sent_count := acc.sent_count + 1 } := by
  unfold processRecipient
  rw [h]
  simp [existingSent, hs]

theorem processRecipient_ok_some {row : CampaignSendLog} {msgId : String}
    (h : scalarOneOrNone acc.state.logs campaign.id email = .found (some row))
    (hs : ¬ row.status = "sent") (hp : provider email = .ok msgId) :
    processRecipient env provider campaign template company assetUrls now
        acc email =
      .next { acc with
        state := { acc.state with
          logs := updateById acc.state.logs (sentUpdate row msgId now) }
        sent_count := acc.sent_count + 1
        provider_calls := acc.provider_calls ++
          [renderedCall env campaign template company assetUrls email] } := by
  unfold processRecipient
  rw [h]
  simp [existingSent, hs, hp]

theorem processRecipient_ok_none {msgId : String}
    (h : scalarOneOrNone acc.state.logs campaign.id email = .found none)
    (hp : provider email = .ok msgId) :
    processRecipient env provider campaign template company assetUrls now
        acc email =
      .next { acc with
        state := { acc.state with
          logs := acc.state.logs ++
            [sentInsert acc.nextId campaign.id email msgId now] }
        nextId := acc.nextId + 1
        sent_count := acc.sent_count + 1
        provider_calls := acc.provider_calls ++
          [renderedCall env campaign template company assetUrls email] } := by
  unfold processRecipient
  rw [h]
  simp [existingSent, hp]

theorem processRecipient_client_some {row : CampaignSendLog} {code msg : String}
    (h : scalarOneOrNone acc.state.logs campaign.id email = .found (some row))
    (hs : ¬ row.status = "sent")
    (hp : provider email = .clientError code msg) (hc : ¬ code = "Throttling") :
    processRecipient env provider campaign template company assetUrls now
        acc email =
      .next { acc with
        state := { acc.state with
          logs := updateById acc.state.logs (failedUpdate row code msg) }
        failed_count := acc.failed_count + 1
        provider_calls := acc.provider_calls ++
          [renderedCall env campaign template company assetUrls email] } := by
  unfold processRecipient
  rw [h]
  simp [existingSent, hs, hp, hc]

theorem processRecipient_client_some_throttle {row : CampaignSendLog}
    {msg : String}
    (h : scalarOneOrNone acc.state.logs campaign.id email = .found (some row))
    (hs : ¬ row.status = "sent")
    (hp : provider email = .clientError "Throttling" msg) :
    processRecipient env provider campaign template company assetUrls now
        acc email =
      .throttleRetry { acc with
        state := { acc.state with
          logs := updateById acc.state.logs
            (failedUpdate row "Throttling" msg) }
        failed_count := acc.failed_count + 1
        provider_calls := acc.provider_calls ++
          [renderedCall env campaign template company assetUrls email] } 30 := by
  unfold processRecipient
  rw [h]
  simp [existingSent, hs, hp]

theorem processRecipient_client_none {code msg : String}
    (h : scalarOneOrNone acc.state.logs campaign.id email = .found none)
    (hp : provider email = .clientError code msg) (hc : ¬ code = "Throttling") :
    processRecipient env provider campaign template company assetUrls now
        acc email =
      .next { acc with
        state := { acc.state with
          logs := acc.state.logs ++
            [failedInsert acc.nextId campaign.id email code msg] }
        nextId := acc.nextId + 1
        failed_count := acc.failed_count + 1
        provider_calls := acc.provider_calls ++
          [renderedCall env campaign template company assetUrls email] } := by
  unfold processRecipient
  rw [h]
  simp [existingSent, hp, hc]

theorem processRecipient_client_none_throttle {msg : String}
    (h : scalarOneOrNone acc.state.logs campaign.id email = .found none)
    (hp : provider email = .clientError "Throttling" msg) :
    processRecipient env provider campaign template company assetUrls now
        acc email =
      .throttleRetry { acc with
        state := { acc.state with
          logs := acc.state.logs ++
            [failedInsert acc.nextId campaign.id email "Throttling" msg] }
        nextId := acc.nextId + 1
        failed_count := acc.failed_count + 1
        provider_calls := acc.provider_calls ++
          [renderedCall env campaign template company assetUrls email] } 30 := by
  unfold processRecipient
  rw [h]
  simp [existingSent, hp]

theorem processRecipient_other {existing : Option CampaignSendLog} {msg : String}
    (h : scalarOneOrNone acc.state.logs campaign.id email = .found existing)
    (hsk : existingSent existing = false)
    (hp : provider email = .otherError msg) :
    processRecipient env provider campaign template company assetUrls now
        acc email =
      .next { (accInsertFailed acc
          (errorInsert acc.nextId campaign.id email msg)) with
        provider_calls := acc.provider_calls ++
          [renderedCall env campaign template company assetUrls email] } := by
  unfold processRecipient
  rw [h]
  simp [hsk, hp]

end StepEquations

/-! ## Session invariants across one step -/

theorem pairRowsP_row_false (c cid : Nat) (e email : String)
    (h : ¬(c = cid ∧ e = email)) (r : CampaignSendLog)
    (hr1 : r.campaign_id = cid) (hr2 : r.subscriber_email = email) :
    pairRowsP c e r = false := by
  simp only [pairRowsP, hr1, hr2, Bool.and_eq_false_iff, beq_eq_false_iff_ne]
  by_cases h1 : c = cid
  · exact Or.inr (fun he => h ⟨h1, he.symm⟩)
  · exact Or.inl (fun hc => h1 hc.symm)

theorem pairRowsP_row_true (cid : Nat) (email : String) (r : CampaignSendLog)
    (hr1 : r.campaign_id = cid) (hr2 : r.subscriber_email = email) :
    pairRowsP cid email r = true := by
  simp [pairRowsP, hr1, hr2]

theorem good_append {logs : List CampaignSendLog} {x : CampaignSendLog} {n : Nat}
    (hnd : (logIds logs).Nodup) (hfr : ∀ r ∈ logs, r.id < n) (hx : x.id = n) :
    (logIds (logs ++ [x])).Nodup ∧ ∀ r ∈ logs ++ [x], r.id < n + 1 := by
  constructor
  · rw [logIds_append]
    rw [List.nodup_append]
    refine ⟨hnd, List.nodup_singleton _, ?_⟩
    intro i hi
    simp only [List.mem_singleton]
    intro hix
    rcases List.mem_map.mp hi with ⟨r, hr, hrid⟩
    have := hfr r hr
    omega
  · intro r hr
    rcases List.mem_append.mp hr with hm | hm
    · exact Nat.lt_succ_of_lt (hfr r hm)
    · rw [List.mem_singleton.mp hm, hx]; exact Nat.lt_succ_self n
theorem good_update {logs : List CampaignSendLog} {n : Nat}
    (row row' : CampaignSendLog)
    (hnd : (logIds logs).Nodup) (hfr : ∀ r ∈ logs, r.id < n)
    (hmem : row ∈ logs) (hid : row'.id = row.id) :
    (logIds (updateById logs row')).Nodup ∧
      ∀ r ∈ updateById logs row', r.id < n := by
  refine ⟨by rw [logIds_updateById]; exact hnd, ?_⟩
  intro r hr
  rcases List.mem_map.mp hr with ⟨x, hx, hfx⟩
  by_cases hb : x.id = row'.id
  · have : r = row' := by rw [← hfx]; simp [hb]
    rw [this, hid]
    exact hfr row hmem
  · have : r = x := by rw [← hfx]; simp [hb]
    rw [this]
    exact hfr x hx

/-- Invariants of one pass of the loop body, for any branch taken:
campaigns are never touched, primary-key uniqueness and id freshness are
maintained, rows of every other `(campaign, recipient)` pair are
untouched, every provider call added is addressed to the processed
recipient, the sent counter never decreases, and after the pass the
processed pair owns a row in status `sent` or `failed`. -/
theorem step_invariants (env : Env) (provider : String → SesOutcome)
    (campaign : Campaign) (template : NewsletterTemplate) (company : Company)
    (assetUrls : String) (now : Nat) (acc : BatchAcc) (email : String)
    (hgood : accGood acc) :
    (StepResult.accOf (processRecipient env provider campaign template company
        assetUrls now acc email)).state.campaigns = acc.state.campaigns ∧
    accGood (StepResult.accOf (processRecipient env provider campaign template
        company assetUrls now acc email)) ∧
    (∀ c e, ¬(c = campaign.id ∧ e = email) →
      pairRows (StepResult.accOf (processRecipient env provider campaign
          template company assetUrls now acc email)).state.logs c e =
        pairRows acc.state.logs c e) ∧
    (∀ x ∈ (StepResult.accOf (processRecipient env provider campaign template
        company assetUrls now acc email)).provider_calls,
      x ∈ acc.provider_calls ∨ x.recipient = email) ∧
    acc.sent_count ≤ (StepResult.accOf (processRecipient env provider campaign
        template company assetUrls now acc email)).sent_count ∧
    (∃ row ∈ pairRows (StepResult.accOf (processRecipient env provider campaign
        template company assetUrls now acc email)).state.logs campaign.id email,
      row.status = "sent" ∨ row.status = "failed") := by
  obtain ⟨hnd, hfr⟩ := hgood
  cases hlk : scalarOneOrNone acc.state.logs campaign.id email with
  | multipleRows =>
    rw [processRecipient_multiple env provider campaign template company
      assetUrls now acc email hlk]
    simp only [StepResult.accOf, accInsertFailed]
    refine ⟨trivial, ⟨?_, ?_⟩, ?_, ?_, Nat.le_refl _, ?_⟩
    · exact (good_append hnd hfr rfl).1
    · exact (good_append hnd hfr rfl).2
    · intro c e hne
      rw [pairRows_append_single,
        pairRowsP_row_false c campaign.id e email hne _ rfl rfl]
      simp
    · intro x hx
      exact Or.inl hx
    · refine ⟨errorInsert acc.nextId campaign.id email "MultipleResultsFound",
        ?_, Or.inr rfl⟩
      rw [pairRows_append_single,
        pairRowsP_row_true campaign.id email _ rfl rfl]
      simp
  | found existing =>
    cases existing with
    | some row =>
      have hsingle := pairRows_single_of_scalarOne hlk
      obtain ⟨hmem, hcid, hem⟩ := mem_of_pairRows_single hsingle
      by_cases hs : row.status = "sent"
      · rw [processRecipient_skip env provider campaign template company
          assetUrls now acc email hlk hs]
        simp only [StepResult.accOf]
        refine ⟨trivial, ⟨hnd, hfr⟩, fun c e _ => trivial, ?_, Nat.le_succ _, ?_⟩
        · intro x hx; exact Or.inl hx
        · refine ⟨row, ?_, Or.inl hs⟩
          show row ∈ pairRows acc.state.logs campaign.id email
          rw [hsingle]; exact List.mem_singleton_self row
      · cases hp : provider email with
        | ok msgId =>
          rw [processRecipient_ok_some env provider campaign template company
            assetUrls now acc email hlk hs hp]
          simp only [StepResult.accOf]
          refine ⟨trivial, ⟨?_, ?_⟩, ?_, ?_, Nat.le_succ _, ?_⟩
          · exact (good_update row (sentUpdate row msgId now) hnd hfr hmem rfl).1
          · exact (good_update row (sentUpdate row msgId now) hnd hfr hmem rfl).2
          · intro c e hne
            exact pairRows_updateById_frame row (sentUpdate row msgId now)
              hnd hmem rfl
              (pairRowsP_row_false c campaign.id e email hne row hcid hem)
              (pairRowsP_row_false c campaign.id e email hne _ hcid hem)
          · intro x hx
            rcases List.mem_append.mp hx with hm | hm
            · exact Or.inl hm
            · exact Or.inr (by rw [List.mem_singleton.mp hm]; rfl)
          · refine ⟨sentUpdate row msgId now, ?_, Or.inl rfl⟩
            rw [pairRows_updateById_self row (sentUpdate row msgId now)
              hnd hsingle rfl (pairRowsP_row_true campaign.id email _ hcid hem)]
            exact List.mem_singleton_self _
        | clientError code msg =>
          by_cases hc : code = "Throttling"
          · subst hc
            rw [processRecipient_client_some_throttle env provider campaign
              template company assetUrls now acc email hlk hs hp]
            simp only [StepResult.accOf]
            refine ⟨trivial, ⟨?_, ?_⟩, ?_, ?_, Nat.le_refl _, ?_⟩
            · exact (good_update row (failedUpdate row "Throttling" msg)
                hnd hfr hmem rfl).1
            · exact (good_update row (failedUpdate row "Throttling" msg)
                hnd hfr hmem rfl).2
            · intro c e hne
              exact pairRows_updateById_frame row
                (failedUpdate row "Throttling" msg) hnd hmem rfl
                (pairRowsP_row_false c campaign.id e email hne row hcid hem)
                (pairRowsP_row_false c campaign.id e email hne _ hcid hem)
            · intro x hx
              rcases List.mem_append.mp hx with hm | hm
              · exact Or.inl hm
              · exact Or.inr (by rw [List.mem_singleton.mp hm]; rfl)
            · refine ⟨failedUpdate row "Throttling" msg, ?_, Or.inr rfl⟩
              rw [pairRows_updateById_self row (failedUpdate row "Throttling" msg)
                hnd hsingle rfl (pairRowsP_row_true campaign.id email _ hcid hem)]
              exact List.mem_singleton_self _
          · rw [processRecipient_client_some env provider campaign template
              company assetUrls now acc email hlk hs hp hc]
            simp only [StepResult.accOf]
            refine ⟨trivial, ⟨?_, ?_⟩, ?_, ?_, Nat.le_refl _, ?_⟩
            · exact (good_update row (failedUpdate row code msg)
                hnd hfr hmem rfl).1
            · exact (good_update row (failedUpdate row code msg)
                hnd hfr hmem rfl).2
            · intro c e hne
              exact pairRows_updateById_frame row (failedUpdate row code msg)
                hnd hmem rfl
                (pairRowsP_row_false c campaign.id e email hne row hcid hem)
                (pairRowsP_row_false c campaign.id e email hne _ hcid hem)
            · intro x hx
              rcases List.mem_append.mp hx with hm | hm
              · exact Or.inl hm
              · exact Or.inr (by rw [List.mem_singleton.mp hm]; rfl)
            · refine ⟨failedUpdate row code msg, ?_, Or.inr rfl⟩
              rw [pairRows_updateById_self row (failedUpdate row code msg)
                hnd hsingle rfl (pairRowsP_row_true campaign.id email _ hcid hem)]
              exact List.mem_singleton_self _
        | otherError msg =>
          rw [processRecipient_other env provider campaign template company
            assetUrls now acc email hlk (by simp [existingSent, hs]) hp]
          simp only [StepResult.accOf, accInsertFailed]
          refine ⟨trivial, ⟨?_, ?_⟩, ?_, ?_, Nat.le_refl _, ?_⟩
          · exact (good_append hnd hfr rfl).1
          · exact (good_append hnd hfr rfl).2
          · intro c e hne
            rw [pairRows_append_single,
              pairRowsP_row_false c campaign.id e email hne _ rfl rfl]
            simp
          · intro x hx
            rcases List.mem_append.mp hx with hm | hm
            · exact Or.inl hm
            · exact Or.inr (by rw [List.mem_singleton.mp hm]; rfl)
          · refine ⟨errorInsert acc.nextId campaign.id email msg, ?_, Or.inr rfl⟩
            rw [pairRows_append_single,
              pairRowsP_row_true campaign.id email _ rfl rfl]
            simp
    | none =>
      cases hp : provider email with
      | ok msgId =>
        rw [processRecipient_ok_none env provider campaign template company
          assetUrls now acc email hlk hp]
        simp only [StepResult.accOf]
        refine ⟨trivial, ⟨?_, ?_⟩, ?_, ?_, Nat.le_succ _, ?_⟩
        · exact (good_append hnd hfr rfl).1
        · exact (good_append hnd hfr rfl).2
        · intro c e hne
          rw [pairRows_append_single,
            pairRowsP_row_false c campaign.id e email hne _ rfl rfl]
          simp
        · intro x hx
          rcases List.mem_append.mp hx with hm | hm
          · exact Or.inl hm
          · exact Or.inr (by rw [List.mem_singleton.mp hm]; rfl)
        · refine ⟨sentInsert acc.nextId campaign.id email msgId now,
            ?_, Or.inl rfl⟩
          rw [pairRows_append_single,
            pairRowsP_row_true campaign.id email _ rfl rfl]
          simp
      | clientError code msg =>
        by_cases hc : code = "Throttling"
        · subst hc
          rw [processRecipient_client_none_throttle env provider campaign
            template company assetUrls now acc email hlk hp]
          simp only [StepResult.accOf]
          refine ⟨trivial, ⟨?_, ?_⟩, ?_, ?_, Nat.le_refl _, ?_⟩
          · exact (good_append hnd hfr rfl).1
          · exact (good_append hnd hfr rfl).2
          · intro c e hne
            rw [pairRows_append_single,
              pairRowsP_row_false c campaign.id e email hne _ rfl rfl]
            simp
          · intro x hx
            rcases List.mem_append.mp hx with hm | hm
            · exact Or.inl hm
            · exact Or.inr (by rw [List.mem_singleton.mp hm]; rfl)
          · refine ⟨failedInsert acc.nextId campaign.id email "Throttling" msg,
              ?_, Or.inr rfl⟩
            rw [pairRows_append_single,
              pairRowsP_row_true campaign.id email _ rfl rfl]
            simp
        · rw [processRecipient_client_none env provider campaign template
            company assetUrls now acc email hlk hp hc]
          simp only [StepResult.accOf]
          refine ⟨trivial, ⟨?_, ?_⟩, ?_, ?_, Nat.le_refl _, ?_⟩
          · exact (good_append hnd hfr rfl).1
          · exact (good_append hnd hfr rfl).2
          · intro c e hne
            rw [pairRows_append_single,
              pairRowsP_row_false c campaign.id e email hne _ rfl rfl]
            simp
          · intro x hx
            rcases List.mem_append.mp hx with hm | hm
            · exact Or.inl hm
            · exact Or.inr (by rw [List.mem_singleton.mp hm]; rfl)
          · refine ⟨failedInsert acc.nextId campaign.id email code msg,
              ?_, Or.inr rfl⟩
            rw [pairRows_append_single,
              pairRowsP_row_true campaign.id email _ rfl rfl]
            simp
      | otherError msg =>
        rw [processRecipient_other env provider campaign template company
          assetUrls now acc email hlk (by simp [existingSent]) hp]
        simp only [StepResult.accOf, accInsertFailed]
        refine ⟨trivial, ⟨?_, ?_⟩, ?_, ?_, Nat.le_refl _, ?_⟩
        · exact (good_append hnd hfr rfl).1
        · exact (good_append hnd hfr rfl).2
        · intro c e hne
          rw [pairRows_append_single,
            pairRowsP_row_false c campaign.id e email hne _ rfl rfl]
          simp
        · intro x hx
          rcases List.mem_append.mp hx with hm | hm
          · exact Or.inl hm
          · exact Or.inr (by rw [List.mem_singleton.mp hm]; rfl)
        · refine ⟨errorInsert acc.nextId campaign.id email msg, ?_, Or.inr rfl⟩
          rw [pairRows_append_single,
            pairRowsP_row_true campaign.id email _ rfl rfl]
          simp

/-! ## Loop-level lemmas -/

theorem accOf_next (acc : BatchAcc) : (StepResult.next acc).accOf = acc := rfl

theorem accOf_throttle (acc : BatchAcc) (c : Nat) :
    (StepResult.throttleRetry acc c).accOf = acc := rfl

theorem loopAccOf_completed (acc : BatchAcc) :
    (LoopResult.completed acc).accOf = acc := rfl

theorem loopAccOf_throttled (acc : BatchAcc) (c : Nat) :
    (LoopResult.throttled acc c).accOf = acc := rfl

section LoopLemmas

variable (env : Env) (provider : String → SesOutcome) (campaign : Campaign)
variable (template : NewsletterTemplate) (company : Company)
variable (assetUrls : String) (now : Nat)

theorem sendLoop_nil (acc : BatchAcc) :
    sendLoop env provider campaign template company assetUrls now acc [] =
      .completed acc := rfl

theorem sendLoop_cons_next (acc acc' : BatchAcc) (e : String)
    (rest : List String)
    (h : processRecipient env provider campaign template company assetUrls now
      acc e = .next acc') :
    sendLoop env provider campaign template company assetUrls now acc
        (e :: rest) =
      sendLoop env provider campaign template company assetUrls now acc'
        rest := by
  conv_lhs => rw [sendLoop]
  rw [h]

theorem sendLoop_cons_throttle (acc acc' : BatchAcc) (e : String)
    (rest : List String) (c : Nat)
    (h : processRecipient env provider campaign template company assetUrls now
      acc e = .throttleRetry acc' c) :
    sendLoop env provider campaign template company assetUrls now acc
        (e :: rest) = .throttled acc' c := by
  conv_lhs => rw [sendLoop]
  rw [h]

/-- Campaigns-table invariance of one step, with no side conditions:
no branch of the loop body writes a `Campaign` row. -/
theorem step_campaigns (acc : BatchAcc) (email : String) :
    (StepResult.accOf (processRecipient env provider campaign template company
        assetUrls now acc email)).state.campaigns = acc.state.campaigns := by
  cases hlk : scalarOneOrNone acc.state.logs campaign.id email with
  | multipleRows =>
    rw [processRecipient_multiple env provider campaign template company
      assetUrls now acc email hlk]
    rfl
  | found existing =>
    cases existing with
    | some row =>
      by_cases hs : row.status = "sent"
      · rw [processRecipient_skip env provider campaign template company
          assetUrls now acc email hlk hs]
        rfl
      · cases hp : provider email with
        | ok msgId =>
          rw [processRecipient_ok_some env provider campaign template company
            assetUrls now acc email hlk hs hp]
          rfl
        | clientError code msg =>
          by_cases hc : code = "Throttling"
          · subst hc
            rw [processRecipient_client_some_throttle env provider campaign
              template company assetUrls now acc email hlk hs hp]
            rfl
          · rw [processRecipient_client_some env provider campaign template
              company assetUrls now acc email hlk hs hp hc]
            rfl
        | otherError msg =>
          rw [processRecipient_other env provider campaign template company
            assetUrls now acc email hlk (by simp [existingSent, hs]) hp]
          rfl
    | none =>
      cases hp : provider email with
      | ok msgId =>
        rw [processRecipient_ok_none env provider campaign template company
          assetUrls now acc email hlk hp]
        rfl
      | clientError code msg =>
        by_cases hc : code = "Throttling"
        · subst hc
          rw [processRecipient_client_none_throttle env provider campaign
            template company assetUrls now acc email hlk hp]
          rfl
        · rw [processRecipient_client_none env provider campaign template
            company assetUrls now acc email hlk hp hc]
          rfl
      | otherError msg =>
        rw [processRecipient_other env provider campaign template company
          assetUrls now acc email hlk (by simp [existingSent]) hp]
        rfl

/-- Campaigns-table invariance of the whole loop. -/
theorem loop_campaigns : ∀ (emails : List String) (acc : BatchAcc),
    (LoopResult.accOf (sendLoop env provider campaign template company
        assetUrls now acc emails)).state.campaigns = acc.state.campaigns := by
  intro emails
  induction emails with
  | nil => intro acc; rfl
  | cons e rest ih =>
    intro acc
    cases hstep : processRecipient env provider campaign template company
        assetUrls now acc e with
    | next acc' =>
      rw [sendLoop_cons_next env provider campaign template company assetUrls
        now acc acc' e rest hstep]
      have hstepc := step_campaigns env provider campaign template company
        assetUrls now acc e
      rw [hstep, accOf_next] at hstepc
      rw [ih acc', hstepc]
    | throttleRetry acc' c =>
      rw [sendLoop_cons_throttle env provider campaign template company
        assetUrls now acc acc' e rest c hstep]
      have hstepc := step_campaigns env provider campaign template company
        assetUrls now acc e
      rw [hstep, accOf_throttle] at hstepc
      rw [loopAccOf_throttled]
      exact hstepc

/-- The step invariants carried through the loop: campaigns untouched,
session well-formedness, frame over unprocessed pairs, provider calls
addressed only to listed recipients, monotone sent counter. -/
theorem loop_invariants : ∀ (emails : List String) (acc : BatchAcc),
    accGood acc →
    accGood (LoopResult.accOf (sendLoop env provider campaign template company
      assetUrls now acc emails)) ∧
    (∀ c e, (∀ m ∈ emails, ¬(c = campaign.id ∧ e = m)) →
      pairRows (LoopResult.accOf (sendLoop env provider campaign template
          company assetUrls now acc emails)).state.logs c e =
        pairRows acc.state.logs c e) ∧
    (∀ x ∈ (LoopResult.accOf (sendLoop env provider campaign template company
        assetUrls now acc emails)).provider_calls,
      x ∈ acc.provider_calls ∨ x.recipient ∈ emails) ∧
    acc.sent_count ≤ (LoopResult.accOf (sendLoop env provider campaign template
      company assetUrls now acc emails)).sent_count := by
  intro emails
  induction emails with
  | nil =>
    intro acc hgood
    exact ⟨hgood, fun c e _ => rfl, fun x hx => Or.inl hx, Nat.le_refl _⟩
  | cons e rest ih =>
    intro acc hgood
    have hs := step_invariants env provider campaign template company assetUrls
      now acc e hgood
    cases hstep : processRecipient env provider campaign template company
        assetUrls now acc e with
    | next acc' =>
      rw [hstep, accOf_next] at hs
      obtain ⟨-, hgood', hframe, hcalls, hmono, -⟩ := hs
      obtain ⟨ihgood, ihframe, ihcalls, ihmono⟩ := ih acc' hgood'
      rw [sendLoop_cons_next env provider campaign template company assetUrls
        now acc acc' e rest hstep]
      refine ⟨ihgood, ?_, ?_, Nat.le_trans hmono ihmono⟩
      · intro c e0 hcond
        rw [ihframe c e0 (fun m hm => hcond m (List.mem_cons_of_mem e hm)),
          hframe c e0 (hcond e (List.mem_cons_self e rest))]
      · intro x hx
        rcases ihcalls x hx with hm | hm
        · rcases hcalls x hm with hm' | hm'
          · exact Or.inl hm'
          · exact Or.inr (by rw [hm']; exact List.mem_cons_self e rest)
        · exact Or.inr (List.mem_cons_of_mem e hm)
    | throttleRetry acc' c =>
      rw [hstep, accOf_throttle] at hs
      obtain ⟨-, hgood', hframe, hcalls, hmono, -⟩ := hs
      rw [sendLoop_cons_throttle env provider campaign template company
        assetUrls now acc acc' e rest c hstep, loopAccOf_throttled]
      refine ⟨hgood', ?_, ?_, hmono⟩
      · intro c0 e0 hcond
        exact hframe c0 e0 (hcond e (List.mem_cons_self e rest))
      · intro x hx
        rcases hcalls x hx with hm | hm
        · exact Or.inl hm
        · exact Or.inr (by rw [hm]; exact List.mem_cons_self e rest)

theorem pair_sent_shape {logs : List CampaignSendLog} {cid : Nat} {r : String}
    (h : (pairRows logs cid r).map (fun x => x.status) = ["sent"]) :
    ∃ row, pairRows logs cid r = [row] ∧ row.status = "sent" := by
  rcases hp : pairRows logs cid r with _ | ⟨a, t⟩
  · rw [hp] at h; cases h
  · cases t with
    | nil =>
      rw [hp] at h
      simp at h
      exact ⟨a, rfl, h⟩
    | cons b t' =>
      rw [hp] at h
      simp at h

theorem scalarOne_of_single {logs : List CampaignSendLog} {cid : Nat}
    {e : String} {row : CampaignSendLog} (h : pairRows logs cid e = [row]) :
    scalarOneOrNone logs cid e = .found (some row) := by
  unfold scalarOneOrNone
  rw [h]

/-- Processing a list of recipients leaves an already-`sent` pair
untouched: its rows are preserved, no provider call is addressed to it,
and on a completed run it contributes to the sent counter. -/
theorem loop_sent_pair (r : String) : ∀ (emails : List String) (acc : BatchAcc),
    accGood acc →
    (pairRows acc.state.logs campaign.id r).map (fun x => x.status) = ["sent"] →
    pairRows (LoopResult.accOf (sendLoop env provider campaign template company
        assetUrls now acc emails)).state.logs campaign.id r =
      pairRows acc.state.logs campaign.id r ∧
    (∀ x ∈ (LoopResult.accOf (sendLoop env provider campaign template company
        assetUrls now acc emails)).provider_calls,
      x ∈ acc.provider_calls ∨ ¬ x.recipient = r) ∧
    (∀ acc', sendLoop env provider campaign template company assetUrls now acc
        emails = .completed acc' → r ∈ emails →
      acc.sent_count + 1 ≤ acc'.sent_count) := by
  intro emails
  induction emails with
  | nil =>
    intro acc _ _
    refine ⟨rfl, fun x hx => Or.inl hx, ?_⟩
    intro acc' _ hr
    exact absurd hr (List.not_mem_nil r)
  | cons e rest ih =>
    intro acc hgood hsent
    by_cases her : e = r
    · subst her
      obtain ⟨row, hrow, hrowst⟩ := pair_sent_shape hsent
      have hlk := scalarOne_of_single hrow
      have hskip := processRecipient_skip env provider campaign template
        company assetUrls now acc e hlk hrowst
      rw [sendLoop_cons_next env provider campaign template company assetUrls
        now acc _ e rest hskip]
      have hgood1 : accGood { acc with sent_count := acc.sent_count + 1 } :=
        hgood
      have hsent1 : (pairRows ({ acc with
          sent_count := acc.sent_count + 1 } : BatchAcc).state.logs
          campaign.id e).map (fun x => x.status) = ["sent"] := hsent
      obtain ⟨ihpair, ihcalls, _⟩ := ih _ hgood1 hsent1
      refine ⟨ihpair, ihcalls, ?_⟩
      intro acc' hcomp _
      have hmono := (loop_invariants env provider campaign template company
        assetUrls now rest _ hgood1).2.2.2
      rw [hcomp, loopAccOf_completed] at hmono
      exact hmono
    · have hs := step_invariants env provider campaign template company
        assetUrls now acc e hgood
      cases hstep : processRecipient env provider campaign template company
          assetUrls now acc e with
      | next acc' =>
        rw [hstep, accOf_next] at hs
        obtain ⟨-, hgood', hframe, hcalls, hmono, -⟩ := hs
        have hpair' : pairRows acc'.state.logs campaign.id r =
            pairRows acc.state.logs campaign.id r :=
          hframe campaign.id r (fun hand => her hand.2.symm)
        have hsent' : (pairRows acc'.state.logs campaign.id r).map
            (fun x => x.status) = ["sent"] := by
          rw [hpair']; exact hsent
        obtain ⟨ihpair, ihcalls, ihbound⟩ := ih acc' hgood' hsent'
        rw [sendLoop_cons_next env provider campaign template company assetUrls
          now acc acc' e rest hstep]
        refine ⟨by rw [ihpair, hpair'], ?_, ?_⟩
        · intro x hx
          rcases ihcalls x hx with hm | hm
          · rcases hcalls x hm with hm' | hm'
            · exact Or.inl hm'
            · exact Or.inr (fun hxr => her (hm'.symm.trans hxr))
          · exact Or.inr hm
        · intro acc2 hcomp hr
          have hr' : r ∈ rest := by
            rcases List.mem_cons.mp hr with h1 | h1
            · exact absurd h1.symm her
            · exact h1
          exact Nat.le_trans (Nat.succ_le_succ hmono) (ihbound acc2 hcomp hr')
      | throttleRetry acc' c =>
        rw [hstep, accOf_throttle] at hs
        obtain ⟨-, -, hframe, hcalls, -, -⟩ := hs
        rw [sendLoop_cons_throttle env provider campaign template company
          assetUrls now acc acc' e rest c hstep]
        refine ⟨?_, ?_, ?_⟩
        · rw [loopAccOf_throttled]
          exact hframe campaign.id r (fun hand => her hand.2.symm)
        · rw [loopAccOf_throttled]
          intro x hx
          rcases hcalls x hx with hm | hm
          · exact Or.inl hm
          · exact Or.inr (fun hxr => her (hm.symm.trans hxr))
        · intro acc2 hcomp _
          exact LoopResult.noConfusion hcomp

/-- When the provider does not throttle a recipient, its step always
continues the loop. -/
theorem step_next_of_no_throttle (acc : BatchAcc) (email : String)
    (h : ∀ m, ¬ provider email = .clientError "Throttling" m) :
    ∃ acc', processRecipient env provider campaign template company assetUrls
      now acc email = .next acc' := by
  cases hlk : scalarOneOrNone acc.state.logs campaign.id email with
  | multipleRows =>
    exact ⟨_, processRecipient_multiple env provider campaign template company
      assetUrls now acc email hlk⟩
  | found existing =>
    cases existing with
    | some row =>
      by_cases hs : row.status = "sent"
      · exact ⟨_, processRecipient_skip env provider campaign template company
          assetUrls now acc email hlk hs⟩
      · cases hp : provider email with
        | ok msgId =>
          exact ⟨_, processRecipient_ok_some env provider campaign template
            company assetUrls now acc email hlk hs hp⟩
        | clientError code msg =>
          by_cases hc : code = "Throttling"
          · subst hc
            exact absurd hp (h msg)
          · exact ⟨_, processRecipient_client_some env provider campaign
              template company assetUrls now acc email hlk hs hp hc⟩
        | otherError msg =>
          exact ⟨_, processRecipient_other env provider campaign template
            company assetUrls now acc email hlk (by simp [existingSent, hs]) hp⟩
    | none =>
      cases hp : provider email with
      | ok msgId =>
        exact ⟨_, processRecipient_ok_none env provider campaign template
          company assetUrls now acc email hlk hp⟩
      | clientError code msg =>
        by_cases hc : code = "Throttling"
        · subst hc
          exact absurd hp (h msg)
        · exact ⟨_, processRecipient_client_none env provider campaign template
            company assetUrls now acc email hlk hp hc⟩
      | otherError msg =>
        exact ⟨_, processRecipient_other env provider campaign template company
          assetUrls now acc email hlk (by simp [existingSent]) hp⟩

/-- When the provider throttles no listed recipient, the loop runs to
completion (no retry signal). -/
theorem loop_completed_of_no_throttle : ∀ (emails : List String)
    (acc : BatchAcc),
    (∀ e ∈ emails, ∀ m, ¬ provider e = .clientError "Throttling" m) →
    ∃ acc', sendLoop env provider campaign template company assetUrls now acc
      emails = .completed acc' := by
  intro emails
  induction emails with
  | nil => intro acc _; exact ⟨acc, rfl⟩
  | cons e rest ih =>
    intro acc h
    obtain ⟨acc1, hstep⟩ := step_next_of_no_throttle env provider campaign
      template company assetUrls now acc e (h e (List.mem_cons_self e rest))
    rw [sendLoop_cons_next env provider campaign template company assetUrls
      now acc acc1 e rest hstep]
    exact ih acc1 (fun e0 he0 => h e0 (List.mem_cons_of_mem e he0))

/-- One step keeps every pair with at most one row at at most one row,
provided the processed recipient does not hit the generic exception
handler while its pair already has a row. -/
theorem step_pair_count (acc : BatchAcc) (email : String) (hgood : accGood acc)
    (hx : (∀ m, ¬ provider email = .otherError m) ∨
      pairRows acc.state.logs campaign.id email = [])
    (c : Nat) (e : String)
    (hle : (pairRows acc.state.logs c e).length ≤ 1) :
    (pairRows (StepResult.accOf (processRecipient env provider campaign
        template company assetUrls now acc email)).state.logs c e).length
      ≤ 1 := by
  obtain ⟨hnd, hfr⟩ := hgood
  by_cases hpe : c = campaign.id ∧ e = email
  case neg =>
    rw [(step_invariants env provider campaign template company assetUrls now
      acc email ⟨hnd, hfr⟩).2.2.1 c e hpe]
    exact hle
  case pos =>
    obtain ⟨rfl, rfl⟩ := hpe
    cases hlk : scalarOneOrNone acc.state.logs campaign.id e with
    | multipleRows =>
      have := two_le_of_scalarOne_multiple hlk
      omega
    | found existing =>
      cases existing with
      | some row =>
        have hsingle := pairRows_single_of_scalarOne hlk
        obtain ⟨hmem, hcid, hem⟩ := mem_of_pairRows_single hsingle
        by_cases hs : row.status = "sent"
        · rw [processRecipient_skip env provider campaign template company
            assetUrls now acc e hlk hs]
          exact hle
        · cases hp : provider e with
          | ok msgId =>
            rw [processRecipient_ok_some env provider campaign template company
              assetUrls now acc e hlk hs hp]
            simp only [accOf_next]
            rw [pairRows_updateById_self row (sentUpdate row msgId now) hnd
              hsingle rfl (pairRowsP_row_true campaign.id e _ hcid hem)]
            exact Nat.le_refl 1
          | clientError code msg =>
            by_cases hc : code = "Throttling"
            · subst hc
              rw [processRecipient_client_some_throttle env provider campaign
                template company assetUrls now acc e hlk hs hp]
              simp only [accOf_throttle]
              rw [pairRows_updateById_self row
                (failedUpdate row "Throttling" msg) hnd hsingle rfl
                (pairRowsP_row_true campaign.id e _ hcid hem)]
              exact Nat.le_refl 1
            · rw [processRecipient_client_some env provider campaign template
                company assetUrls now acc e hlk hs hp hc]
              simp only [accOf_next]
              rw [pairRows_updateById_self row (failedUpdate row code msg) hnd
                hsingle rfl (pairRowsP_row_true campaign.id e _ hcid hem)]
              exact Nat.le_refl 1
          | otherError msg =>
            rcases hx with hxl | hxr
            · exact absurd hp (hxl msg)
            · rw [hxr] at hsingle
              cases hsingle
      | none =>
        have hnil := pairRows_nil_of_scalarOne hlk
        cases hp : provider e with
        | ok msgId =>
          rw [processRecipient_ok_none env provider campaign template company
            assetUrls now acc e hlk hp]
          simp only [accOf_next]
          rw [pairRows_append_single,
            pairRowsP_row_true campaign.id e _ rfl rfl, hnil]
          simp
        | clientError code msg =>
          by_cases hc : code = "Throttling"
          · subst hc
            rw [processRecipient_client_none_throttle env provider campaign
              template company assetUrls now acc e hlk hp]
            simp only [accOf_throttle]
            rw [pairRows_append_single,
              pairRowsP_row_true campaign.id e _ rfl rfl, hnil]
            simp
          · rw [processRecipient_client_none env provider campaign template
              company assetUrls now acc e hlk hp hc]
            simp only [accOf_next]
            rw [pairRows_append_single,
              pairRowsP_row_true campaign.id e _ rfl rfl, hnil]
            simp
        | otherError msg =>
          rw [processRecipient_other env provider campaign template company
            assetUrls now acc e hlk (by simp [existingSent]) hp]
          simp only [accOf_next, accInsertFailed]
          rw [pairRows_append_single,
            pairRowsP_row_true campaign.id e _ rfl rfl, hnil]
          simp

/-- The whole loop keeps every pair at at most one row, when no listed
recipient with a pre-existing row hits the generic exception handler
and the recipient list has no duplicates. -/
theorem loop_pair_count : ∀ (emails : List String) (acc : BatchAcc),
    accGood acc → emails.Nodup →
    (∀ m2 ∈ emails, (∀ m, ¬ provider m2 = .otherError m) ∨
      pairRows acc.state.logs campaign.id m2 = []) →
    ∀ c e, (pairRows acc.state.logs c e).length ≤ 1 →
    (pairRows (LoopResult.accOf (sendLoop env provider campaign template
        company assetUrls now acc emails)).state.logs c e).length ≤ 1 := by
  intro emails
  induction emails with
  | nil => intro acc _ _ _ c e hle; exact hle
  | cons m rest ih =>
    intro acc hgood hnodup hx c e hle
    have hcount := step_pair_count env provider campaign template company
      assetUrls now acc m hgood (hx m (List.mem_cons_self m rest)) c e hle
    have hs := step_invariants env provider campaign template company assetUrls
      now acc m hgood
    obtain ⟨hm_nin, hnodup'⟩ := List.nodup_cons.mp hnodup
    cases hstep : processRecipient env provider campaign template company
        assetUrls now acc m with
    | next acc' =>
      rw [hstep, accOf_next] at hs hcount
      obtain ⟨-, hgood', hframe, -, -, -⟩ := hs
      rw [sendLoop_cons_next env provider campaign template company assetUrls
        now acc acc' m rest hstep]
      refine ih acc' hgood' hnodup' ?_ c e hcount
      intro m2 hm2
      rcases hx m2 (List.mem_cons_of_mem m hm2) with hl | hr
      · exact Or.inl hl
      · right
        rw [hframe campaign.id m2 (fun hand => hm_nin (hand.2 ▸ hm2))]
        exact hr
    | throttleRetry acc' cc =>
      rw [hstep, accOf_throttle] at hcount
      rw [sendLoop_cons_throttle env provider campaign template company
        assetUrls now acc acc' m rest cc hstep, loopAccOf_throttled]
      exact hcount

/-- One step preserves "the pair owns a terminal (`sent`/`failed`)
row". -/
theorem step_terminal_preserve (acc : BatchAcc) (email : String)
    (c0 : Nat) (e0 : String) (hgood : accGood acc)
    (hpre : ∃ row ∈ pairRows acc.state.logs c0 e0,
      row.status = "sent" ∨ row.status = "failed") :
    ∃ row ∈ pairRows (StepResult.accOf (processRecipient env provider campaign
        template company assetUrls now acc email)).state.logs c0 e0,
      row.status = "sent" ∨ row.status = "failed" := by
  by_cases hpe : c0 = campaign.id ∧ e0 = email
  · obtain ⟨rfl, rfl⟩ := hpe
    exact (step_invariants env provider campaign template company assetUrls now
      acc e0 hgood).2.2.2.2.2
  · rw [(step_invariants env provider campaign template company assetUrls now
      acc email hgood).2.2.1 c0 e0 hpe]
    exact hpre

/-- The loop preserves "the pair owns a terminal row". -/
theorem loop_terminal_preserve : ∀ (emails : List String) (acc : BatchAcc)
    (c0 : Nat) (e0 : String), accGood acc →
    (∃ row ∈ pairRows acc.state.logs c0 e0,
      row.status = "sent" ∨ row.status = "failed") →
    ∃ row ∈ pairRows (LoopResult.accOf (sendLoop env provider campaign template
        company assetUrls now acc emails)).state.logs c0 e0,
      row.status = "sent" ∨ row.status = "failed" := by
  intro emails
  induction emails with
  | nil => intro acc c0 e0 _ hpre; exact hpre
  | cons m rest ih =>
    intro acc c0 e0 hgood hpre
    have hkeep := step_terminal_preserve env provider campaign template company
      assetUrls now acc m c0 e0 hgood hpre
    have hs := step_invariants env provider campaign template company assetUrls
      now acc m hgood
    cases hstep : processRecipient env provider campaign template company
        assetUrls now acc m with
    | next acc' =>
      rw [hstep, accOf_next] at hs hkeep
      rw [sendLoop_cons_next env provider campaign template company assetUrls
        now acc acc' m rest hstep]
      exact ih acc' c0 e0 hs.2.1 hkeep
    | throttleRetry acc' cc =>
      rw [hstep, accOf_throttle] at hkeep
      rw [sendLoop_cons_throttle env provider campaign template company
        assetUrls now acc acc' m rest cc hstep, loopAccOf_throttled]
      exact hkeep

/-- On a completed loop run, every listed recipient's pair ends with a
terminal (`sent`/`failed`) row. -/
theorem loop_terminal : ∀ (emails : List String) (acc : BatchAcc),
    accGood acc → ∀ acc',
    sendLoop env provider campaign template company assetUrls now acc emails =
      .completed acc' →
    ∀ r ∈ emails, ∃ row ∈ pairRows acc'.state.logs campaign.id r,
      row.status = "sent" ∨ row.status = "failed" := by
  intro emails
  induction emails with
  | nil =>
    intro acc _ acc' _ r hr
    exact absurd hr (List.not_mem_nil r)
  | cons m rest ih =>
    intro acc hgood acc' hcomp r hr
    have hs := step_invariants env provider campaign template company assetUrls
      now acc m hgood
    cases hstep : processRecipient env provider campaign template company
        assetUrls now acc m with
    | next acc1 =>
      rw [hstep, accOf_next] at hs
      rw [sendLoop_cons_next env provider campaign template company assetUrls
        now acc acc1 m rest hstep] at hcomp
      rcases List.mem_cons.mp hr with rfl | hmr
      · have hpres := loop_terminal_preserve env provider campaign template
          company assetUrls now rest acc1 campaign.id r hs.2.1 hs.2.2.2.2.2
        rw [hcomp, loopAccOf_completed] at hpres
        exact hpres
      · exact ih acc1 hs.2.1 acc' hcomp r hmr
    | throttleRetry acc1 cc =>
      rw [sendLoop_cons_throttle env provider campaign template company
        assetUrls now acc acc1 m rest cc hstep] at hcomp
      exact LoopResult.noConfusion hcomp

end LoopLemmas

/-! ## Task-level lemmas -/

theorem taskOfLoop_stateOf (lr : LoopResult) (total : Nat) :
    (taskOfLoop lr total).stateOf = (LoopResult.accOf lr).state := by
  cases lr <;> rfl

theorem taskOfLoop_callsOf (lr : LoopResult) (total : Nat) :
    (taskOfLoop lr total).callsOf = (LoopResult.accOf lr).provider_calls := by
  cases lr <;> rfl

theorem taskOfLoop_completed_elim {lr : LoopResult} {total : Nat}
    {st' : DbState} {sc fc tot : Nat} {rs : String} {cal : List ProviderCall}
    (h : taskOfLoop lr total = .completed st' sc fc tot rs cal) :
    ∃ acc', lr = .completed acc' ∧ st' = acc'.state ∧
      sc = acc'.sent_count := by
  cases lr with
  | completed acc =>
    refine ⟨acc, rfl, ?_, ?_⟩
    · injection h with h1 _ _ _ _ _
      exact h1.symm
    · injection h with _ h2 _ _ _ _
      exact h2.symm
  | throttled acc c => exact absurd h (by simp [taskOfLoop])

/-- The task either returns a structured pre-loop error with the state
untouched, or runs the recipient loop from the committed state and
converts its result. -/
theorem send_batch_split (env : Env) (provider : String → SesOutcome)
    (now : Nat) (st : DbState) (cid : Nat) (emails : List String) :
    (∃ reason, send_campaign_batch env provider now st cid emails =
      .errorReturn st reason) ∨
    (∃ campaign template company,
      st.campaigns.find? (fun c => c.id == cid) = some campaign ∧
      campaign.id = cid ∧
      send_campaign_batch env provider now st cid emails =
        taskOfLoop (sendLoop env provider campaign template company
          (assetUrlsOf env campaign template) now (initAcc st) emails)
          emails.length) := by
  cases h1 : st.campaigns.find? (fun c => c.id == cid) with
  | none =>
    exact Or.inl ⟨"campaign_not_found", by simp [send_campaign_batch, h1]⟩
  | some campaign =>
    cases h2 : campaign.template_id.bind
        (fun tid => env.templates.find? (fun t => t.id == tid)) with
    | none =>
      exact Or.inl ⟨"template_not_found",
        by simp [send_campaign_batch, h1, h2]⟩
    | some template =>
      cases h3 : env.companies.find? (fun c => c.id == campaign.company_id) with
      | none =>
        exact Or.inl ⟨"company_not_found",
          by simp [send_campaign_batch, h1, h2, h3]⟩
      | some company =>
        cases h4 : env.sender_email with
        | none =>
          exact Or.inl ⟨"sender_email_not_configured",
            by simp [send_campaign_batch, h1, h2, h3, h4]⟩
        | some sender =>
          cases h5 : (sender == "") with
          | true =>
            exact Or.inl ⟨"sender_email_not_configured",
              by simp [send_campaign_batch, h1, h2, h3, h4, h5]⟩
          | false =>
            refine Or.inr ⟨campaign, template, company, rfl, ?_,
              by simp [send_campaign_batch, h1, h2, h3, h4, h5]⟩
            have := List.find?_some h1
            simpa using this

/-! ## Claim theorems -/

/-- C7: frame property — on every execution path of
`send_campaign_batch` (pre-loop structured-error returns, graceful
completion, and the throttling re-queue), the `campaigns` table, and so
every campaign's `status` and `sent_at`, is exactly as it was: the batch
sender mutates only `CampaignSendLog` rows. -/
theorem c7_campaign_frame (env : Env) (provider : String → SesOutcome)
    (now : Nat) (st : DbState) (cid : Nat) (emails : List String) :
    (send_campaign_batch env provider now st cid emails).stateOf.campaigns =
      st.campaigns := by
  rcases send_batch_split env provider now st cid emails with
    ⟨reason, herr⟩ | ⟨campaign, template, company, -, -, heq⟩
  · rw [herr]
    rfl
  · rw [heq, taskOfLoop_stateOf, loop_campaigns env provider campaign template
      company (assetUrlsOf env campaign template) now emails (initAcc st)]
    rfl

/-- C8: scheduler due-filter and scheduler-never-sends — a run of
`enqueue_due_campaigns` performs no provider call, submits one
`send_campaign` dispatch unit (carrying only the campaign id) per
selected campaign whose submission succeeds, and selects exactly the
campaigns with status `"scheduled"` and a `scheduled_for` instant at or
before `now` (so a campaign scheduled in the future, or one whose
status moved away from `"scheduled"`, is not selected). -/
theorem c8_scheduler_due_filter (cs : List Campaign) (now : Nat)
    (submitOk : Nat → Bool) :
    (enqueue_due_campaigns cs now submitOk).provider_calls = [] ∧
    (enqueue_due_campaigns cs now submitOk).enqueued_tasks =
      ((dueCampaigns cs now).filter (fun c => submitOk c.id)).map
        (fun c => c.id) ∧
    ∀ c, c ∈ dueCampaigns cs now ↔
      (c ∈ cs ∧ c.status = "scheduled" ∧
        ∃ t, c.scheduled_for = some t ∧ t ≤ now) := by
  refine ⟨rfl, rfl, fun c => ?_⟩
  rw [dueCampaigns, List.mem_filter]
  unfold campaignIsDue
  cases hsf : c.scheduled_for with
  | none => simp [hsf]
  | some t => simp [hsf, and_assoc]

/-- C9: template rendering — placeholder substitution replaces every
occurrence of each context key's `{{key}}` token, leaves placeholders
with no matching context key literally in the output, and (being a pure
function of its inputs) is deterministic; in particular the spec's
example renders `{{company_name}}` to `Acme` while the unresolved
`{{subscriber_username}}` passes through unchanged. -/
theorem c9_template_rendering :
    renderText "Hi {{subscriber_username}}, from {{company_name}}"
      [("company_name", "Acme"), ("subscriber_email", "a@b.com")] =
      "Hi {{subscriber_username}}, from Acme" ∧
    renderText "{{company_name}} and {{company_name}}"
      [("company_name", "Acme"), ("subscriber_email", "a@b.com")] =
      "Acme and Acme" ∧
    renderText "S {{company_name}}"
      [("company_name", "Acme"), ("subscriber_email", "a@b.com")] = "S Acme" ∧
    renderText "B {{subscriber_email}}"
      [("company_name", "Acme"), ("subscriber_email", "a@b.com")] =
      "B a@b.com" ∧
    renderText "T {{missing_key}}"
      [("company_name", "Acme"), ("subscriber_email", "a@b.com")] =
      "T {{missing_key}}" := by
  decide

/-- C1: idempotent re-send safety — when the delivery log already holds
exactly one row for `(cid, r)` and its status is `"sent"`, an invocation
whose recipient list contains `r` performs no provider call addressed to
`r`, leaves the rows of that pair exactly as they were (in particular
inserts no duplicate), and on graceful completion counts the recipient
as already-successful in `sent_count`. -/
theorem c1_idempotent_resend (env : Env) (provider : String → SesOutcome)
    (now : Nat) (st : DbState) (cid : Nat) (emails : List String) (r : String)
    (hnd : (logIds st.logs).Nodup) (hr : r ∈ emails)
    (hsent : (pairRows st.logs cid r).map (fun x => x.status) = ["sent"]) :
    (∀ x ∈ (send_campaign_batch env provider now st cid emails).callsOf,
      ¬ x.recipient = r) ∧
    pairRows (send_campaign_batch env provider now st cid
      emails).stateOf.logs cid r = pairRows st.logs cid r ∧
    (∀ st' sc fc tot rs cal,
      send_campaign_batch env provider now st cid emails =
        .completed st' sc fc tot rs cal → 1 ≤ sc) := by
  rcases send_batch_split env provider now st cid emails with
    ⟨reason, herr⟩ | ⟨campaign, template, company, -, hcid, heq⟩
  · rw [herr]
    refine ⟨?_, rfl, ?_⟩
    · intro x hx
      exact absurd hx (List.not_mem_nil x)
    · intro st' sc fc tot rs cal hcl
      exact TaskOutcome.noConfusion hcl
  · subst hcid
    rw [heq]
    have hgood0 := initAcc_good hnd
    obtain ⟨hpair, hcalls, hbound⟩ := loop_sent_pair env provider campaign
      template company (assetUrlsOf env campaign template) now r emails
      (initAcc st) hgood0 hsent
    refine ⟨?_, ?_, ?_⟩
    · rw [taskOfLoop_callsOf]
      intro x hx
      rcases hcalls x hx with hm | hm
      · exact absurd hm (List.not_mem_nil x)
      · exact hm
    · rw [taskOfLoop_stateOf]
      exact hpair
    · intro st' sc fc tot rs cal hcl
      obtain ⟨acc', hlr, -, hsc⟩ := taskOfLoop_completed_elim hcl
      have hb := hbound acc' hlr hr
      have h0 : (initAcc st).sent_count = 0 := rfl
      omega

/-- Witness for C1 at a concrete input: one already-`sent` recipient in
a two-recipient batch. -/
theorem c1_idempotent_resend_witness :
    (∀ x ∈ (send_campaign_batch fixEnv okProvider 5 c1WitSt 7
        ["a@x.io", "b@x.io"]).callsOf, ¬ x.recipient = "a@x.io") ∧
    pairRows (send_campaign_batch fixEnv okProvider 5 c1WitSt 7
      ["a@x.io", "b@x.io"]).stateOf.logs 7 "a@x.io" =
      pairRows c1WitSt.logs 7 "a@x.io" ∧
    (∀ st' sc fc tot rs cal,
      send_campaign_batch fixEnv okProvider 5 c1WitSt 7
        ["a@x.io", "b@x.io"] = .completed st' sc fc tot rs cal → 1 ≤ sc) :=
  c1_idempotent_resend fixEnv okProvider 5 c1WitSt 7 ["a@x.io", "b@x.io"]
    "a@x.io" (by decide) (by decide) (by decide)

/-- C6 (amended): an unknown provider error while sending to one
recipient never re-queues the task — as long as no listed recipient
receives the SES `Throttling` code, the invocation does not retry at the
task-queue level (unknown errors are recorded as permanent `failed`
rows instead, see the counterexample). -/
theorem c6_no_retry_amended (env : Env) (provider : String → SesOutcome)
    (now : Nat) (st : DbState) (cid : Nat) (emails : List String)
    (h : ∀ e ∈ emails, ∀ m, ¬ provider e = .clientError "Throttling" m) :
    (send_campaign_batch env provider now st cid
      emails).isRetryScheduled = false := by
  rcases send_batch_split env provider now st cid emails with
    ⟨reason, herr⟩ | ⟨campaign, template, company, -, -, heq⟩
  · rw [herr]
    rfl
  · rw [heq]
    obtain ⟨acc', hcomp⟩ := loop_completed_of_no_throttle env provider campaign
      template company (assetUrlsOf env campaign template) now emails
      (initAcc st) h
    rw [hcomp]
    rfl

/-- Witness for the amended C6 at a concrete input. -/
theorem c6_no_retry_amended_witness :
    (send_campaign_batch fixEnv boomProvider 5 fixSt 7
      ["b@x.io"]).isRetryScheduled = false :=
  c6_no_retry_amended fixEnv boomProvider 5 fixSt 7 ["b@x.io"]
    (fun _ _ _ hcontra => SesOutcome.noConfusion hcontra)

/-- C6 (counterexample): the claim says an unknown provider error is
handled as retryable at the task-queue level rather than recorded as a
permanent `failed` row with no retry; in fact a batch whose only
recipient hits an unknown error completes gracefully with no retry and
a permanent `failed` row carrying the error text. -/
theorem c6_counterexample :
    (send_campaign_batch fixEnv boomProvider 5 fixSt 7
      ["b@x.io"]).isCompleted = true ∧
    (send_campaign_batch fixEnv boomProvider 5 fixSt 7
      ["b@x.io"]).isRetryScheduled = false ∧
    (pairRows (send_campaign_batch fixEnv boomProvider 5 fixSt 7
      ["b@x.io"]).stateOf.logs 7 "b@x.io").map (fun r => r.status) =
      ["failed"] ∧
    (pairRows (send_campaign_batch fixEnv boomProvider 5 fixSt 7
      ["b@x.io"]).stateOf.logs 7 "b@x.io").map (fun r => r.error_message) =
      [some "boom"] := by
  decide

/-- C2 (counterexample): the claim says every write path updates the
existing row for the pair rather than inserting a duplicate; in fact the
generic `except Exception` handler always inserts a new row, so a
recipient whose pair already has one (`failed`) row ends with two rows
after an unknown per-recipient error. -/
theorem c2_counterexample :
    (pairRows c2CexSt.logs 7 "b@x.io").length = 1 ∧
    (pairRows (send_campaign_batch fixEnv boomProvider 5 c2CexSt 7
      ["b@x.io"]).stateOf.logs 7 "b@x.io").length = 2 := by
  decide

/-- C2 (amended): the success and provider-rejection (`ClientError`)
write paths upsert the existing row, so at most one row per
`(campaign_id, subscriber_email)` pair is maintained, provided no listed
recipient whose pair already has a row hits the generic
`except Exception` handler (which inserts unconditionally) and the
recipient list has no duplicates. -/
theorem c2_one_row_per_pair_amended (env : Env)
    (provider : String → SesOutcome) (now : Nat) (st : DbState) (cid : Nat)
    (emails : List String) (hnd : (logIds st.logs).Nodup)
    (hem : emails.Nodup)
    (hx : ∀ r ∈ emails, (∀ m, ¬ provider r = .otherError m) ∨
      pairRows st.logs cid r = []) :
    ∀ c e, (pairRows st.logs c e).length ≤ 1 →
      (pairRows (send_campaign_batch env provider now st cid
        emails).stateOf.logs c e).length ≤ 1 := by
  rcases send_batch_split env provider now st cid emails with
    ⟨reason, herr⟩ | ⟨campaign, template, company, -, hcid, heq⟩
  · rw [herr]
    exact fun c e hle => hle
  · subst hcid
    intro c e hle
    rw [heq, taskOfLoop_stateOf]
    exact loop_pair_count env provider campaign template company
      (assetUrlsOf env campaign template) now emails (initAcc st)
      (initAcc_good hnd) hem hx c e hle

/-- Witness for the amended C2 at a concrete input. -/
theorem c2_one_row_per_pair_amended_witness :
    (pairRows (send_campaign_batch fixEnv okProvider 5 fixSt 7
      ["a@x.io"]).stateOf.logs 7 "a@x.io").length ≤ 1 :=
  c2_one_row_per_pair_amended fixEnv okProvider 5 fixSt 7 ["a@x.io"]
    (by decide) (by decide) (fun r _ => Or.inr rfl) 7 "a@x.io" (by decide)

/-- C3 (counterexample): the claim says no recipient's row is left in
status `pending` on graceful completion; in fact a recipient with a
pre-existing `pending` row who hits the generic exception handler gets a
new `failed` row while the `pending` row survives the commit. -/
theorem c3_counterexample :
    (send_campaign_batch fixEnv boomProvider 5 c3CexSt 7
      ["b@x.io"]).isCompleted = true ∧
    ((send_campaign_batch fixEnv boomProvider 5 c3CexSt 7
      ["b@x.io"]).stateOf.logs.filter
        (fun r => r.status == "pending")).length = 1 := by
  decide

/-- C3 (amended): when `send_campaign_batch` runs to graceful completion
(no retry signal raised), every recipient of its input list ends with at
least one Delivery Log row for its pair in terminal status `"sent"` or
`"failed"`, and those rows are in the committed state the task returns —
though a pre-existing `pending` row may additionally survive alongside a
new `failed` row when the unexpected-error path fired for that
recipient. -/
theorem c3_terminal_amended (env : Env) (provider : String → SesOutcome)
    (now : Nat) (st : DbState) (cid : Nat) (emails : List String)
    (hnd : (logIds st.logs).Nodup) :
    ∀ st' sc fc tot rs cal,
      send_campaign_batch env provider now st cid emails =
        .completed st' sc fc tot rs cal →
      ∀ r ∈ emails, ∃ row ∈ pairRows st'.logs cid r,
        row.status = "sent" ∨ row.status = "failed" := by
  rcases send_batch_split env provider now st cid emails with
    ⟨reason, herr⟩ | ⟨campaign, template, company, -, hcid, heq⟩
  · intro st' sc fc tot rs cal hcl
    rw [herr] at hcl
    exact TaskOutcome.noConfusion hcl
  · subst hcid
    intro st' sc fc tot rs cal hcl r hr
    rw [heq] at hcl
    obtain ⟨acc', hlr, hst, -⟩ := taskOfLoop_completed_elim hcl
    subst hst
    exact loop_terminal env provider campaign template company
      (assetUrlsOf env campaign template) now emails (initAcc st)
      (initAcc_good hnd) acc' hlr r hr

/-- Witness for the amended C3 at a concrete input: a single-recipient
batch that completes with one `sent` row. -/
theorem c3_terminal_amended_witness :
    ∃ row ∈ pairRows c3WitSt.logs 7 "a@x.io",
      row.status = "sent" ∨ row.status = "failed" :=
  c3_terminal_amended fixEnv okProvider 5 fixSt 7 ["a@x.io"] (by decide)
    c3WitSt 1 0 1 "success" [c3WitCall] (by decide) "a@x.io" (by decide)

/-- C4: throttling recovery, evaluated at the spec's own scenario (ten
recipients, provider throttles at recipient 4).  The invocation commits
the three `sent` rows (together with the throttled recipient's `failed`
row) before signalling the queue, re-queues the whole batch with a
30-second delay — `self.retry(countdown=30)` enqueues that retry before
raising the `Retry` marker; the outer `except Exception` handler then
enqueues an additional duplicate retry at 60 seconds, which adds
nothing the claim speaks about — and on re-entry the three
already-`sent` recipients are skipped, so the provider is called for
exactly the remaining seven (7 calls, not 10). -/
theorem c4_throttling_recovery :
    c4Run1.isRetryScheduled = true ∧
    c4Run1.retryCountdownsOf = [30, 60] ∧
    (c4Run1.stateOf.logs.filter (fun r => r.status == "sent")).length = 3 ∧
    c4Run1.callsOf.map (fun x => x.recipient) =
      ["u1@x.io", "u2@x.io", "u3@x.io", "u4@x.io"] ∧
    c4Run2.callsOf.map (fun x => x.recipient) =
      ["u4@x.io", "u5@x.io", "u6@x.io", "u7@x.io", "u8@x.io", "u9@x.io",
       "u10@x.io"] ∧
    c4Run2.callsOf.length = 7 ∧
    c4Run2.isCompleted = true ∧
    (c4Run2.stateOf.logs.filter (fun r => r.status == "sent")).length = 10 := by
  decide

/-- C5: partial-failure isolation — in a ten-recipient batch where the
provider permanently rejects exactly recipient 4 (`MessageRejected`),
the task completes gracefully with nine `sent` rows, one `failed` row
carrying the error detail on the rejected recipient's row, result
status `"partial"` with counts 9/1 of 10, and no task-queue re-queue. -/
theorem c5_partial_failure_isolation :
    (send_campaign_batch fixEnv rejectProvider 1 fixSt 7
      tenEmails).isCompleted = true ∧
    (send_campaign_batch fixEnv rejectProvider 1 fixSt 7
      tenEmails).isRetryScheduled = false ∧
    ((send_campaign_batch fixEnv rejectProvider 1 fixSt 7
      tenEmails).stateOf.logs.filter
        (fun r => r.status == "sent")).length = 9 ∧
    (pairRows (send_campaign_batch fixEnv rejectProvider 1 fixSt 7
      tenEmails).stateOf.logs 7 "u4@x.io").map (fun r => r.status) =
      ["failed"] ∧
    (pairRows (send_campaign_batch fixEnv rejectProvider 1 fixSt 7
      tenEmails).stateOf.logs 7 "u4@x.io").map (fun r => r.error_message) =
      [some "MessageRejected: Address is blacklisted"] ∧
    (send_campaign_batch fixEnv rejectProvider 1 fixSt 7
      tenEmails).sentCountOf = 9 ∧
    (send_campaign_batch fixEnv rejectProvider 1 fixSt 7
      tenEmails).failedCountOf = 1 ∧
    (send_campaign_batch fixEnv rejectProvider 1 fixSt 7
      tenEmails).resultStatusOf = "partial" := by
  decide

/-- C10: definedness of the existing-log reference on the error path —
whenever the provider raises a `ClientError` for a recipient, the
`except ClientError` handler's `existing_log` is exactly the result of
the Delivery Log lookup performed for the same `(campaign_id, recipient)`
pair in the same loop iteration: with an existing row the handler
updates precisely that row (a member of the current session state for
the current pair), with no row it inserts a fresh `failed` row, and when
the lookup itself failed (`MultipleResultsFound`) no provider call is
made, so the handler can never observe an unbound or stale value. -/
theorem c10_existing_log_definedness (env : Env)
    (provider : String → SesOutcome) (campaign : Campaign)
    (template : NewsletterTemplate) (company : Company) (assetUrls : String)
    (now : Nat) (acc : BatchAcc) (email : String) (code msg : String)
    (hp : provider email = .clientError code msg) :
    (∀ row, scalarOneOrNone acc.state.logs campaign.id email =
        .found (some row) → ¬ row.status = "sent" →
      row ∈ acc.state.logs ∧ row.campaign_id = campaign.id ∧
      row.subscriber_email = email ∧
      (StepResult.accOf (processRecipient env provider campaign template
          company assetUrls now acc email)).state.logs =
        updateById acc.state.logs (failedUpdate row code msg)) ∧
    (scalarOneOrNone acc.state.logs campaign.id email = .found none →
      (StepResult.accOf (processRecipient env provider campaign template
          company assetUrls now acc email)).state.logs =
        acc.state.logs ++
          [failedInsert acc.nextId campaign.id email code msg]) ∧
    (scalarOneOrNone acc.state.logs campaign.id email = .multipleRows →
      (StepResult.accOf (processRecipient env provider campaign template
          company assetUrls now acc email)).provider_calls =
        acc.provider_calls ∧
      (StepResult.accOf (processRecipient env provider campaign template
          company assetUrls now acc email)).state.logs =
        acc.state.logs ++
          [errorInsert acc.nextId campaign.id email "MultipleResultsFound"]) := by
  refine ⟨?_, ?_, ?_⟩
  · intro row hlk hs
    have hsingle := pairRows_single_of_scalarOne hlk
    obtain ⟨hmem, hcid, hem⟩ := mem_of_pairRows_single hsingle
    refine ⟨hmem, hcid, hem, ?_⟩
    by_cases hc : code = "Throttling"
    · subst hc
      rw [processRecipient_client_some_throttle env provider campaign template
        company assetUrls now acc email hlk hs hp]
      rfl
    · rw [processRecipient_client_some env provider campaign template company
        assetUrls now acc email hlk hs hp hc]
      rfl
  · intro hlk
    by_cases hc : code = "Throttling"
    · subst hc
      rw [processRecipient_client_none_throttle env provider campaign template
        company assetUrls now acc email hlk hp]
      rfl
    · rw [processRecipient_client_none env provider campaign template company
        assetUrls now acc email hlk hp hc]
      rfl
  · intro hlk
    rw [processRecipient_multiple env provider campaign template company
      assetUrls now acc email hlk]
    exact ⟨rfl, rfl⟩

/-- Witness for C10 at a concrete input: a recipient with one existing
`failed` row whose send hits an unknown SES `ClientError`; the handler
updates exactly that row. -/
theorem c10_existing_log_definedness_witness :
    (StepResult.accOf (processRecipient fixEnv cErrProvider fixCampaign
        fixTemplate fixCompany "" 5 (initAcc c2CexSt)
        "b@x.io")).state.logs =
      updateById (initAcc c2CexSt).state.logs
        (failedUpdate failedRow "InternalFailure" "oops") :=
  ((c10_existing_log_definedness fixEnv cErrProvider fixCampaign fixTemplate
      fixCompany "" 5 (initAcc c2CexSt) "b@x.io" "InternalFailure" "oops"
      rfl).1 failedRow (by decide) (by decide)).2.2.2

end SkyMail
